import Mathlib

/-!
Shallow embedding of the tinyhal configuration manager
(`src/configmgr/audio_config.c` together with the constants of
`src/include/tinyhal/audio_defs.h` and the inline helpers of
`src/include/tinyhal/audio_config.h`).

Conventions of the embedding:
* C `uint32_t` bitmasks are `Nat` kept below `2^32`; `~x` is modelled as
  `U32_MASK ^^^ x`, valid for operands below `2^32`.
* C `int` values that can go negative (use counts, reference counts, error
  returns) are `Int`.  C error codes are returned as negative `Int`s.
* The live ALSA mixer is a read-only environment (`Mixer`): hardware writes
  are recorded as a trace of `WriteEvent`s instead of mutating the mixer.
  `mixer_add_new_ctls` re-scans the same environment, so it is the identity
  here and a name that was absent stays absent.
* Out-of-line data files (`<ctl file=.../>` byte payloads) are an
  association-list environment passed to the functions that read them.
-/

namespace TinyHal

/-! ### Error codes (errno values used by the source) -/

def ENOENT : Int := 2
def EIOerr : Int := 5
def ENOMEM : Int := 12
def EINVAL : Int := 22
def ENOSYS : Int := 38

/-! ### 32-bit helpers and device bitmask constants (audio_defs.h) -/

def U32_MASK : Nat := 0xFFFFFFFF

/-- Bitwise complement of a `uint32_t` value (operand assumed `< 2^32`). -/
def not32 (x : Nat) : Nat := U32_MASK ^^^ x

/-- Wrap an integer to the value a C `int32_t` store would keep. -/
def toInt32 (i : Int) : Int := (i + 2 ^ 31) % 2 ^ 32 - 2 ^ 31

def AUDIO_DEVICE_BIT_IN : Nat := 0x80000000
def AUDIO_DEVICE_BIT_DEFAULT : Nat := 0x40000000

def AUDIO_DEVICE_OUT_EARPIECE : Nat := 0x1
def AUDIO_DEVICE_OUT_SPEAKER : Nat := 0x2
def AUDIO_DEVICE_OUT_WIRED_HEADSET : Nat := 0x4
def AUDIO_DEVICE_OUT_WIRED_HEADPHONE : Nat := 0x8
def AUDIO_DEVICE_OUT_BLUETOOTH_SCO : Nat := 0x10
def AUDIO_DEVICE_OUT_BLUETOOTH_SCO_HEADSET : Nat := 0x20
def AUDIO_DEVICE_OUT_BLUETOOTH_SCO_CARKIT : Nat := 0x40
def AUDIO_DEVICE_OUT_BLUETOOTH_A2DP : Nat := 0x80
def AUDIO_DEVICE_OUT_BLUETOOTH_A2DP_HEADPHONES : Nat := 0x100
def AUDIO_DEVICE_OUT_BLUETOOTH_A2DP_SPEAKER : Nat := 0x200
def AUDIO_DEVICE_OUT_AUX_DIGITAL : Nat := 0x400

/-- `AUDIO_DEVICE_OUT_ALL` of audio_defs.h: every output device bit,
including `AUDIO_DEVICE_OUT_DEFAULT = AUDIO_DEVICE_BIT_DEFAULT`.
The or-chain of the header evaluates to this constant. -/
def AUDIO_DEVICE_OUT_ALL : Nat := 0x41FFFFFF

def AUDIO_DEVICE_OUT_ALL_SCO : Nat :=
  AUDIO_DEVICE_OUT_BLUETOOTH_SCO ||| AUDIO_DEVICE_OUT_BLUETOOTH_SCO_HEADSET |||
    AUDIO_DEVICE_OUT_BLUETOOTH_SCO_CARKIT

def AUDIO_DEVICE_OUT_ALL_A2DP : Nat :=
  AUDIO_DEVICE_OUT_BLUETOOTH_A2DP ||| AUDIO_DEVICE_OUT_BLUETOOTH_A2DP_HEADPHONES |||
    AUDIO_DEVICE_OUT_BLUETOOTH_A2DP_SPEAKER

def AUDIO_DEVICE_OUT_ALL_USB : Nat := 0x2000 ||| 0x4000

def AUDIO_DEVICE_IN_WIRED_HEADSET : Nat := AUDIO_DEVICE_BIT_IN ||| 0x10
def AUDIO_DEVICE_IN_BUILTIN_MIC : Nat := AUDIO_DEVICE_BIT_IN ||| 0x4
def AUDIO_DEVICE_IN_BACK_MIC : Nat := AUDIO_DEVICE_BIT_IN ||| 0x80
def AUDIO_DEVICE_IN_VOICE_CALL : Nat := AUDIO_DEVICE_BIT_IN ||| 0x40
def AUDIO_DEVICE_IN_AUX_DIGITAL : Nat := AUDIO_DEVICE_BIT_IN ||| 0x20
def AUDIO_DEVICE_IN_ALL_SCO : Nat := AUDIO_DEVICE_BIT_IN ||| 0x8

/-- `AUDIO_DEVICE_IN_ALL` of audio_defs.h: direction bit, all input payload
bits `0x1 .. 0x100000` and `AUDIO_DEVICE_IN_DEFAULT`. -/
def AUDIO_DEVICE_IN_ALL : Nat := 0xC01FFFFF

/-! ### C string-to-number parsing (`string_to_int` / `string_to_uint`)

The source uses `strtol`/`strtoul` with base 0 and then requires the whole
string to have been consumed (`endptr[0] == '\0' && endptr != str`).
`strtol_parse` models exactly that check: it returns the sign and magnitude
when the whole string is one optionally-signed decimal, hexadecimal (`0x`)
or octal (leading `0`) number, and `none` otherwise.  The `long`-overflow
clamping of `strtol` is not modelled (no claim exercises values beyond
64 bits). -/

def isSpaceC (c : Char) : Bool :=
  c = ' ' || c = '\t' || c = '\n' || c = '\x0b' || c = '\x0c' || c = '\r'

def hexDigitVal (c : Char) : Option Nat :=
  if '0' ≤ c ∧ c ≤ '9' then some (c.toNat - 48)
  else if 'a' ≤ c ∧ c ≤ 'f' then some (c.toNat - 87)
  else if 'A' ≤ c ∧ c ≤ 'F' then some (c.toNat - 55)
  else none

def digitVal (radix : Nat) (c : Char) : Option Nat :=
  match hexDigitVal c with
  | some v => if v < radix then some v else none
  | none => none

/-- Greedily consume digits of the given radix, returning the accumulated
value and the unconsumed remainder, or `none` if no digit was consumed. -/
def parseDigits (radix : Nat) : List Char → Nat → Bool → Option (Nat × List Char)
  | [], acc, got => if got then some (acc, []) else none
  | c :: cs, acc, got =>
    match digitVal radix c with
    | some v => parseDigits radix cs (acc * radix + v) true
    | none => if got then some (acc, c :: cs) else none

/-- Model of `strtol(str, &endptr, 0)` followed by the source's
"whole string consumed and at least one digit" check. -/
def strtol_parse (s : String) : Option (Bool × Nat) :=
  let cs := s.toList.dropWhile isSpaceC
  let (neg, cs1) :=
    match cs with
    | '-' :: rest => (true, rest)
    | '+' :: rest => (false, rest)
    | rest => (false, rest)
  let parsed :=
    match cs1 with
    | '0' :: x :: rest =>
      if (x = 'x' || x = 'X') ∧ (digitVal 16 (rest.headD ' ')).isSome then
        parseDigits 16 rest 0 false
      else
        parseDigits 8 ('0' :: x :: rest) 0 false
    | cs2 => parseDigits 10 cs2 0 false
  match parsed with
  | some (v, []) => some (neg, v)
  | _ => none

/-- `string_to_int`: `-ENOENT` on a null string, `-EINVAL` if the string is
not a complete number, else the value as stored into a C `int`. -/
def string_to_int (s : Option String) : Except Int Int :=
  match s with
  | none => .error (-ENOENT)
  | some str =>
    match strtol_parse str with
    | some (neg, mag) => .ok (toInt32 (if neg then -(mag : Int) else (mag : Int)))
    | none => .error (-EINVAL)

/-- `string_to_uint`: as `string_to_int` but through `strtoul` (a leading
minus wraps modulo `2^64`) and rejecting results above `0xFFFFFFFF`. -/
def string_to_uint (s : Option String) : Except Int Nat :=
  match s with
  | none => .error (-ENOENT)
  | some str =>
    match strtol_parse str with
    | some (neg, mag) =>
      let v := if neg then (2 ^ 64 - mag % 2 ^ 64) % 2 ^ 64 else mag
      if v ≤ 0xFFFFFFFF then .ok v else .error (-EINVAL)
    | none => .error (-EINVAL)

/-! ### The live mixer environment -/

inductive MixerCtlType where
  | bool | int | enum | byte | iec958 | int64 | unknown
deriving DecidableEq, Repr

structure MixerCtl where
  name : String
  ctype : MixerCtlType
  num_values : Nat
  /-- Current hardware values (read back by the byte read-modify-write path). -/
  values : List Nat
  range_min : Int
  range_max : Int
deriving DecidableEq, Repr

structure Mixer where
  ctls : List MixerCtl
deriving DecidableEq, Repr

/-- `mixer_get_ctl_by_name`: first control with the given name, together
with its id (its index, the stable id of `mixer_ctl_get_id`). -/
def mixer_get_ctl_by_name (m : Mixer) (name : String) : Option (Nat × MixerCtl) :=
  let rec go : List MixerCtl → Nat → Option (Nat × MixerCtl)
    | [], _ => none
    | c :: rest, i => if c.name = name then some (i, c) else go rest (i + 1)
  go m.ctls 0

/-- `mixer_get_ctl`: look a control up by its stable id. -/
def mixer_get_ctl (m : Mixer) (id : Nat) : Option MixerCtl := m.ctls[id]?

/-- One hardware mixer write, as recorded in the trace. -/
inductive WriteEvent where
  | setValue (id : Nat) (index : Nat) (value : Int)
  | setArray (id : Nat) (data : List Nat)
  | setEnum (id : Nat) (value : String)
deriving DecidableEq, Repr

/-! ### Config-file controls (`struct ctl`) and lazy binding -/

def INVALID_CTL_INDEX : Nat := 0xFFFFFFFF

inductive CtlValue where
  | int (v : Int)
  | str (s : String)
  | data (bytes : List Nat)
deriving DecidableEq, Repr

structure Ctl where
  /-- `ctl_ref`: `none` while unresolved (`UINT_MAX` id in the source). -/
  ref : Option Nat
  name : String
  index : Nat
  array_count : Nat
  ctype : MixerCtlType
  data_file_name : Option String
  value : CtlValue
deriving DecidableEq, Repr

/-- `new_ctl`: a freshly parsed control (unresolved, index invalid). -/
def new_ctl (name : String) : Ctl :=
  { ref := none, name := name, index := INVALID_CTL_INDEX, array_count := 0,
    ctype := .unknown, data_file_name := none, value := .str "" }

def ctl_str_value (c : Ctl) : String :=
  match c.value with
  | .str s => s
  | _ => ""

def ctl_int_value (c : Ctl) : Int :=
  match c.value with
  | .int v => v
  | _ => 0

def ctl_data_value (c : Ctl) : List Nat :=
  match c.value with
  | .data d => d
  | _ => []

/-- Environment of external data files for `<ctl file=.../>` byte payloads. -/
def DataFiles := List (String × List Nat)

def lookupData (files : DataFiles) (name : String) : Option (List Nat) :=
  match files.find? (fun p => p.1 = name) with
  | some p => some p.2
  | none => none

/-- `get_value_from_file`: read the payload file, keeping at most the
control's element count (`vnum`) bytes. A missing file is an I/O error. -/
def get_value_from_file (files : DataFiles) (c : Ctl) (vnum : Nat) : Except Int Ctl :=
  match c.data_file_name with
  | none => .error (-EIOerr)
  | some fname =>
    match lookupData files fname with
    | none => .error (-EIOerr)
    | some bytes =>
      let n := min bytes.length vnum
      .ok { c with array_count := n, value := .data (bytes.take n) }

/-- `strtok_r(str, ",", ...)` tokenisation: comma-separated pieces with
empty pieces skipped. -/
def commaTokens (s : String) : List String :=
  (s.splitOn ",").filter (fun t => t ≠ "")

/-- `make_byte_array`: validate the index and token count against the live
control size, then parse every comma-separated token with `string_to_uint`
and keep the low byte of each value. -/
def make_byte_array (c : Ctl) (vnum : Nat) : Except Int Ctl :=
  if c.index ≥ vnum then .error (-EINVAL)
  else
    let toks := commaTokens (ctl_str_value c)
    if toks.length = 0 then .error (-EINVAL)
    else if c.index + toks.length > vnum then .error (-EINVAL)
    else
      let rec parseAll : List String → Except Int (List Nat)
        | [] => .ok []
        | t :: ts =>
          match string_to_uint (some t) with
          | .error e => .error e
          | .ok v =>
            match parseAll ts with
            | .error e => .error e
            | .ok vs => .ok (v % 256 :: vs)
      match parseAll toks with
      | .error e => .error e
      | .ok bytes => .ok { c with array_count := toks.length, value := .data bytes }

/-- `make_byte_work_buffer`: build the byte payload from the data file or
the literal value string.  (The scratch `buffer` allocation itself has no
observable content until the read-modify-write path overwrites it, so it is
not carried in the model.) -/
def make_byte_work_buffer (files : DataFiles) (c : Ctl) (vnum : Nat) : Except Int Ctl :=
  if c.data_file_name.isSome then get_value_from_file files c vnum
  else make_byte_array c vnum

/-- `ctl_open`: no-op when already resolved; otherwise look the control up
by name (the `mixer_add_new_ctls` re-scan sees the same environment),
determine its concrete type and convert the stored string value.
An error leaves the control unresolved (failure paths in the source never
publish a valid `ref`). -/
def ctl_open (m : Mixer) (files : DataFiles) (c : Ctl) : Except Int Ctl :=
  if c.ref.isSome then .ok c
  else
    match mixer_get_ctl_by_name m c.name with
    | none => .error (-ENOENT)
    | some (id, mc) =>
      match mc.ctype with
      | .byte =>
        let c1 := if c.index = INVALID_CTL_INDEX then { c with index := 0 } else c
        match make_byte_work_buffer files c1 mc.num_values with
        | .error e => .error e
        | .ok c2 => .ok { c2 with ctype := .byte, ref := some id }
      | .bool =>
        match string_to_int (some (ctl_str_value c)) with
        | .error _ => .error (-EINVAL)
        | .ok v => .ok { c with value := .int v, ctype := .bool, ref := some id }
      | .int =>
        match string_to_int (some (ctl_str_value c)) with
        | .error _ => .error (-EINVAL)
        | .ok v => .ok { c with value := .int v, ctype := .int, ref := some id }
      | .enum => .ok { c with ctype := .enum, ref := some id }
      | _ => .error (-EINVAL)

/-- Splice `data` into `buf` starting at `idx` (the `memcpy` of the byte
read-modify-write path). -/
def spliceBytes (buf : List Nat) (idx : Nat) (data : List Nat) : List Nat :=
  buf.take idx ++ data ++ buf.drop (idx + data.length)

/-- The mixer writes performed for one successfully bound control
(the body of the `switch` in `apply_ctls_l`). -/
def apply_resolved_ctl (m : Mixer) (c : Ctl) : List WriteEvent :=
  match c.ref with
  | none => []
  | some id =>
    match mixer_get_ctl m id with
    | none => []
    | some mc =>
      match mc.ctype with
      | .bool | .int =>
        if c.index = INVALID_CTL_INDEX then
          (List.range mc.num_values).map (fun v => .setValue id v (ctl_int_value c))
        else
          [.setValue id c.index (ctl_int_value c)]
      | .byte =>
        if c.index = 0 ∧ c.array_count = mc.num_values then
          [.setArray id (ctl_data_value c)]
        else
          [.setArray id (spliceBytes (mc.values.take mc.num_values) c.index (ctl_data_value c))]
      | .enum => [.setEnum id (ctl_str_value c)]
      | _ => []

/-- `apply_ctls_l`: bind and apply each control in turn; if a control fails
to bind, skip it and every remaining control of this list (the `break`). -/
def apply_ctls_l (m : Mixer) (files : DataFiles) : List Ctl → List Ctl × List WriteEvent
  | [] => ([], [])
  | c :: rest =>
    match ctl_open m files c with
    | .error _ => (c :: rest, [])
    | .ok c1 =>
      let evs := apply_resolved_ctl m c1
      let r := apply_ctls_l m files rest
      (c1 :: r.1, evs ++ r.2)

/-! ### Paths and devices (routing engine, audio_config.c lines 595-709) -/

def e_path_id_off : Int := 0
def e_path_id_on : Int := 1
def e_path_id_custom_base : Int := 2

structure Path where
  id : Int
  ctls : List Ctl
deriving DecidableEq, Repr

/-- `apply_path_l`: apply every control of the path (controls may get
resolved as a side effect, so the updated path is returned). -/
def apply_path_l (m : Mixer) (files : DataFiles) (p : Path) : Path × List WriteEvent :=
  let r := apply_ctls_l m files p.ctls
  ({ p with ctls := r.1 }, r.2)

structure Device where
  dtype : Nat
  use_count : Int
  paths : List Path
deriving DecidableEq, Repr

/-- `apply_device_path_l` on the path at index `pi` of the device: the
"on"/"off" paths are reference-counted (only applied on the 0→1 and →0
transitions), every other path is applied unconditionally.  The returned
`Bool` records whether the path body (`apply_path_l`) actually ran. -/
def apply_device_path_l (m : Mixer) (files : DataFiles) (d : Device) (pi : Nat) :
    Device × List WriteEvent × Bool :=
  match d.paths[pi]? with
  | none => (d, [], false)
  | some p =>
    if p.id = e_path_id_off then
      let uc := d.use_count - 1
      if uc > 0 then ({ d with use_count := uc }, [], false)
      else
        let r := apply_path_l m files p
        ({ d with use_count := uc, paths := d.paths.set pi r.1 }, r.2, true)
    else if p.id = e_path_id_on then
      let uc := d.use_count + 1
      if uc > 1 then ({ d with use_count := uc }, [], false)
      else
        let r := apply_path_l m files p
        ({ d with use_count := uc, paths := d.paths.set pi r.1 }, r.2, true)
    else
      let r := apply_path_l m files p
      ({ d with paths := d.paths.set pi r.1 }, r.2, true)

/-- Iterate `apply_device_path_l` on the path at index `pi`, collecting for
each application whether the path body ran. -/
def apply_device_path_n (m : Mixer) (files : DataFiles) (d : Device) (pi : Nat) :
    Nat → Device × List Bool
  | 0 => (d, [])
  | n + 1 =>
    let r := apply_device_path_l m files d pi
    let rn := apply_device_path_n m files r.1 pi n
    (rn.1, r.2.2 :: rn.2)

/-- The single-walk search of `apply_paths_by_id_l`: find the paths with
ids `first` and `second`, mirroring the loop exactly (including the break
conditions and the fact that a match of `first` can overwrite an earlier
one while the walk is still running). -/
def find_two_paths (first second : Int) :
    List Path → Nat → Option Nat → Option Nat → Option Nat × Option Nat
  | [], _, f0, f1 => (f0, f1)
  | p :: rest, i, f0, f1 =>
    if p.id = first then
      if f1.isSome || first = second then (some i, f1)
      else find_two_paths first second rest (i + 1) (some i) f1
    else if p.id = second then
      if f0.isSome then (f0, some i)
      else find_two_paths first second rest (i + 1) f0 (some i)
    else find_two_paths first second rest (i + 1) f0 f1

/-- `apply_paths_by_id_l`: apply the path with id `first` and then the path
with id `second` (each only if present on the device). -/
def apply_paths_by_id_l (m : Mixer) (files : DataFiles) (d : Device)
    (first second : Int) : Device × List WriteEvent :=
  let found := find_two_paths first second d.paths 0 none none
  let r1 :=
    match found.1 with
    | some i =>
      let r := apply_device_path_l m files d i
      (r.1, r.2.1)
    | none => (d, [])
  let r2 :=
    match found.2 with
    | some i =>
      let r := apply_device_path_l m files r1.1 i
      (r.1, r.2.1)
    | none => (r1.1, [])
  (r2.1, r1.2 ++ r2.2)

/-- The device-walk loop of `apply_paths_to_devices_l`: the running mask has
already had `AUDIO_DEVICE_BIT_IN` stripped; a device is visited when its
type contains `input_flag` and overlaps the remaining mask, and its type
bits are then removed from the mask.  The walk stops early when the mask
becomes zero. -/
def apply_devices_walk (m : Mixer) (files : DataFiles) (input_flag : Nat)
    (first second : Int) : List Device → Nat → List Device × List WriteEvent
  | [], _ => ([], [])
  | d :: rest, mask =>
    if mask = 0 then (d :: rest, [])
    else if (d.dtype &&& input_flag) = input_flag ∧ (d.dtype &&& mask) ≠ 0 then
      let mask1 := mask &&& not32 d.dtype
      let rd := apply_paths_by_id_l m files d first second
      let rr := apply_devices_walk m files input_flag first second rest mask1
      (rd.1 :: rr.1, rd.2 ++ rr.2)
    else
      let rr := apply_devices_walk m files input_flag first second rest mask
      (d :: rr.1, rr.2)

/-- `apply_paths_to_devices_l`. -/
def apply_paths_to_devices_l (m : Mixer) (files : DataFiles) (devs : List Device)
    (devices : Nat) (first second : Int) : List Device × List WriteEvent :=
  let input_flag := devices &&& AUDIO_DEVICE_BIT_IN
  apply_devices_walk m files input_flag first second devs (devices &&& not32 AUDIO_DEVICE_BIT_IN)

/-- `apply_paths_to_global_l`: apply to the first device with type 0. -/
def apply_paths_to_global_l (m : Mixer) (files : DataFiles)
    (first second : Int) : List Device → List Device × List WriteEvent
  | [] => ([], [])
  | d :: rest =>
    if d.dtype = 0 then
      let r := apply_paths_by_id_l m files d first second
      (r.1 :: rest, r.2)
    else
      let r := apply_paths_to_global_l m files first second rest
      (d :: r.1, r.2)

/-! ### Streams and the configuration manager -/

inductive StreamType where
  | out_pcm | in_pcm | out_compress | in_compress | out_hw | in_hw | global
deriving DecidableEq, Repr

/-- `stream_is_input` (audio_config.h). -/
def stream_is_input (t : StreamType) : Bool :=
  t = .in_pcm || t = .in_compress || t = .in_hw

/-- `audio_is_linear_pcm` (audio_defs.h): main format field is
`AUDIO_FORMAT_PCM` (0). -/
def audio_is_linear_pcm (format : Nat) : Bool :=
  format &&& 0xFF000000 = 0

structure StreamControl where
  ref : Option Nat
  index : Nat
  min : Int
  max : Int
deriving DecidableEq, Repr

def default_stream_control : StreamControl :=
  { ref := none, index := 0, min := 0, max := 0 }

structure SCase where
  name : String
  ctls : List Ctl
deriving DecidableEq, Repr

structure UseCase where
  name : String
  cases : List SCase
deriving DecidableEq, Repr

structure Stream where
  stype : StreamType
  name : Option String
  card_number : Nat
  device_number : Nat
  rate : Nat
  period_size : Nat
  period_count : Nat
  ref_count : Int
  max_ref_count : Int
  enable_path : Int
  disable_path : Int
  current_devices : Nat
  volume_left : StreamControl
  volume_right : StreamControl
  usecases : List UseCase
  constants : List (String × String)
deriving DecidableEq, Repr

/-- `new_stream`: runtime defaults of a freshly declared stream. -/
def new_stream_defaults : Stream :=
  { stype := .out_pcm, name := none, card_number := 0, device_number := 0,
    rate := 0, period_size := 0, period_count := 0,
    ref_count := 0, max_ref_count := 0, enable_path := -1, disable_path := -1,
    current_devices := 0, volume_left := default_stream_control,
    volume_right := default_stream_control, usecases := [], constants := [] }

structure ConfigMgr where
  mixer : Mixer
  supported_output_devices : Nat
  supported_input_devices : Nat
  devices : List Device
  anon_streams : List Stream
  named_streams : List Stream
deriving DecidableEq, Repr

/-- Which of the manager's stream arrays a `struct stream*` points into. -/
inductive StreamLoc where
  | anon (i : Nat)
  | named (i : Nat)
deriving DecidableEq, Repr

def getStreamAt (cm : ConfigMgr) : StreamLoc → Option Stream
  | .anon i => cm.anon_streams[i]?
  | .named i => cm.named_streams[i]?

def setStreamAt (cm : ConfigMgr) : StreamLoc → Stream → ConfigMgr
  | .anon i, s => { cm with anon_streams := cm.anon_streams.set i s }
  | .named i, s => { cm with named_streams := cm.named_streams.set i s }

/-- The validation-and-masking block at the top of `apply_route`:
`none` models the early return (input routing requested on an output
stream or vice versa); otherwise the masked device bitmask. -/
def route_mask (t : StreamType) (devices : Nat) : Option Nat :=
  if devices ≠ 0 then
    if devices &&& AUDIO_DEVICE_BIT_IN ≠ 0 then
      if ¬ stream_is_input t then none
      else some ((devices &&& AUDIO_DEVICE_IN_ALL) ||| AUDIO_DEVICE_BIT_IN)
    else
      if stream_is_input t then none
      else some (devices &&& AUDIO_DEVICE_OUT_ALL)
  else some devices

/-- `apply_route`: disable the paths of devices leaving the stream's
current set, enable those entering it, and store the new set. -/
def apply_route (files : DataFiles) (cm : ConfigMgr) (loc : StreamLoc)
    (devices : Nat) : ConfigMgr × List WriteEvent :=
  match getStreamAt cm loc with
  | none => (cm, [])
  | some s =>
    match route_mask s.stype devices with
    | none => (cm, [])
    | some devs =>
      let enabling := (devs &&& not32 s.current_devices) ||| (devs &&& AUDIO_DEVICE_BIT_IN)
      let disabling := ((not32 devs) &&& s.current_devices) ||| (devs &&& AUDIO_DEVICE_BIT_IN)
      let r1 :=
        apply_paths_to_devices_l cm.mixer files cm.devices disabling s.disable_path e_path_id_off
      let r2 :=
        apply_paths_to_devices_l cm.mixer files r1.1 enabling e_path_id_on s.enable_path
      let cm1 := setStreamAt { cm with devices := r2.1 } loc { s with current_devices := devs }
      (cm1, r1.2 ++ r2.2)

/-! ### Stream lifecycle (open/get/release) -/

/-- `open_stream_l`: take a reference if below the instance cap; on the
0→1 transition apply the global "on" path. -/
def open_stream_l (files : DataFiles) (cm : ConfigMgr) (loc : StreamLoc) :
    ConfigMgr × List WriteEvent × Bool :=
  match getStreamAt cm loc with
  | none => (cm, [], false)
  | some s =>
    if s.ref_count < s.max_ref_count then
      let s1 := { s with ref_count := s.ref_count + 1 }
      let cm1 := setStreamAt cm loc s1
      if s1.ref_count = 1 then
        let r := apply_paths_to_global_l cm1.mixer files e_path_id_on s.enable_path cm1.devices
        ({ cm1 with devices := r.1 }, r.2, true)
      else
        (cm1, [], true)
    else
      (cm, [], false)

/-- The downward anonymous-stream search of `get_stream`: highest index
whose stream matches the wanted type and is below its instance cap
(`open_stream_l` has no other failure mode, so the search is equivalent to
attempting the open on each type match from the top). -/
def anon_find_go (streams : List Stream) (t : StreamType) : Nat → Option Nat
  | 0 => none
  | i + 1 =>
    match streams[i]? with
    | some s =>
      if s.stype = t ∧ s.ref_count < s.max_ref_count then some i
      else anon_find_go streams t i
    | none => anon_find_go streams t i

def anon_find (streams : List Stream) (t : StreamType) : Option Nat :=
  anon_find_go streams t streams.length

/-- The stream type wanted by `get_stream` for a device mask and format. -/
def wanted_stream_type (devices format : Nat) : StreamType :=
  if devices &&& AUDIO_DEVICE_BIT_IN ≠ 0 then
    if audio_is_linear_pcm format then .in_pcm else .in_compress
  else
    if audio_is_linear_pcm format then .out_pcm else .out_compress

/-- `get_stream`: find and open a matching anonymous stream, then apply the
initial routing.  Returns the index of the acquired stream, if any. -/
def get_stream (files : DataFiles) (cm : ConfigMgr) (devices _flags format : Nat) :
    ConfigMgr × Option Nat × List WriteEvent :=
  let t := wanted_stream_type devices format
  match anon_find cm.anon_streams t with
  | none => (cm, none, [])
  | some i =>
    let r1 := open_stream_l files cm (.anon i)
    let r2 := apply_route files r1.1 (.anon i) devices
    (r2.1, some i, r1.2.1 ++ r2.2)

/-- `find_named_stream`: first named stream with the given name. -/
def find_named_stream (cm : ConfigMgr) (name : String) : Option Nat :=
  let rec go : List Stream → Nat → Option Nat
    | [], _ => none
    | s :: rest, i =>
      if s.name = some name then some i else go rest (i + 1)
  go cm.named_streams 0

/-- `get_named_stream`: look the stream up by name and open it. -/
def get_named_stream (files : DataFiles) (cm : ConfigMgr) (name : String) :
    ConfigMgr × Option Nat × List WriteEvent :=
  match find_named_stream cm name with
  | none => (cm, none, [])
  | some i =>
    let r := open_stream_l files cm (.named i)
    if r.2.2 then (r.1, some i, r.2.1) else (r.1, none, r.2.1)

/-- `release_stream`: drop one reference; on reaching zero, force "off" on
every routed device, apply the global "off" path and clear the routing. -/
def release_stream (files : DataFiles) (cm : ConfigMgr) (loc : StreamLoc) :
    ConfigMgr × List WriteEvent :=
  match getStreamAt cm loc with
  | none => (cm, [])
  | some s =>
    let rc := s.ref_count - 1
    if rc = 0 then
      let r1 :=
        apply_paths_to_devices_l cm.mixer files cm.devices s.current_devices
          e_path_id_off s.disable_path
      let r2 := apply_paths_to_global_l cm.mixer files s.disable_path e_path_id_off r1.1
      let cm1 := setStreamAt { cm with devices := r2.1 } loc
        { s with ref_count := rc, current_devices := 0 }
      (cm1, r1.2 ++ r2.2)
    else
      (setStreamAt cm loc { s with ref_count := rc }, [])

/-! ### Volume facade (`set_vol_ctl` / `set_hw_volume`) -/

def ctl_ref_valid (r : Option Nat) : Bool := r.isSome

/-- The value computed by `set_vol_ctl`: exact endpoints at 0% and 100%,
otherwise `min + (max-min)*percent/100` in C truncating division, stored
through a C `int`. -/
def vol_ctl_value (mn mx percent : Int) : Int :=
  if percent = 0 then mn
  else if percent = 100 then mx
  else toInt32 (mn + Int.tdiv ((mx - mn) * percent) 100)

/-- `set_vol_ctl`: one write of the scaled value (always returns 0).
The callers only invoke it on a bound control. -/
def set_vol_ctl (volctl : StreamControl) (percent : Int) : List WriteEvent × Int :=
  let v := vol_ctl_value volctl.min volctl.max percent
  match volctl.ref with
  | some id => ([.setValue id volctl.index v], 0)
  | none => ([], 0)

/-- `set_hw_volume`: validate both percentages, average them when only a
mono (left) control is bound, and write to whichever controls exist. -/
def set_hw_volume (s : Stream) (left_pc right_pc : Int) : Int × List WriteEvent :=
  if left_pc < 0 ∨ 100 < left_pc then (-EINVAL, [])
  else if right_pc < 0 ∨ 100 < right_pc then (-EINVAL, [])
  else
    let (retL, evsL) :=
      if ctl_ref_valid s.volume_left.ref then
        let lp := if ¬ ctl_ref_valid s.volume_right.ref then
            Int.tdiv (left_pc + right_pc) 2
          else left_pc
        let (evs, r) := set_vol_ctl s.volume_left lp
        (r, evs)
      else (-ENOSYS, [])
    let (retR, evsR) :=
      if ctl_ref_valid s.volume_right.ref then
        let (evs, r) := set_vol_ctl s.volume_right right_pc
        (r, evs)
      else (retL, [])
    (retR, evsL ++ evsR)

/-! ### Use-case facade (`apply_use_case`) -/

/-- The inner case search: apply the controls of the first case with the
wanted name, returning `none` when no case of this use-case matches. -/
def apply_case_search (m : Mixer) (files : DataFiles) (case_name : String) :
    List SCase → Option (List SCase × List WriteEvent)
  | [] => none
  | c :: rest =>
    if c.name = case_name then
      let r := apply_ctls_l m files c.ctls
      some ({ c with ctls := r.1 } :: rest, r.2)
    else
      match apply_case_search m files case_name rest with
      | some (rest1, evs) => some (c :: rest1, evs)
      | none => none

/-- The outer use-case search of `apply_use_case`: scan the use-cases in
order; a use-case with the wanted setting name whose cases do not contain
`case_name` does not stop the scan. -/
def apply_use_case_search (m : Mixer) (files : DataFiles) (setting case_name : String) :
    List UseCase → List UseCase × Int × List WriteEvent
  | [] => ([], -ENOSYS, [])
  | uc :: rest =>
    if uc.name = setting then
      match apply_case_search m files case_name uc.cases with
      | some (cases1, evs) => ({ uc with cases := cases1 } :: rest, 0, evs)
      | none =>
        let r := apply_use_case_search m files setting case_name rest
        (uc :: r.1, r.2.1, r.2.2)
    else
      let r := apply_use_case_search m files setting case_name rest
      (uc :: r.1, r.2.1, r.2.2)

/-- `apply_use_case`: 0 when a matching setting/case pair was found and its
controls applied (best-effort), `-ENOSYS` otherwise. -/
def apply_use_case (m : Mixer) (files : DataFiles) (s : Stream)
    (setting case_name : String) : Stream × Int × List WriteEvent :=
  let r := apply_use_case_search m files setting case_name s.usecases
  ({ s with usecases := r.1 }, r.2.1, r.2.2)

/-! ### Config loader (XML parser model)

The source parses with expat through a table-driven element state machine
(`elem_table`, `parse_section_start` / `parse_section_end`).  Here the XML
input is a well-formed element tree and the walk mirrors the table checks:
element legality against the parent's `valid_subelem` mask (which the
`<mixer>`/`<init>` handlers mutate), the parse-depth limit, attribute
validity/required masks, and the start/end handler of each element.
Handler errors freeze the parse (handlers no-op once `parse_error` is set)
and `parse_log_error` turns them into `-EINVAL`; `XML_StopParser` is
modelled by the `suspend` (resumable, codec-probe redirect) and `abort`
(fatal, reported as an expat error) walk statuses. -/

inductive Xml where
  | elem (name : String) (attrs : List (String × String)) (children : List Xml)

def BIT (x : Nat) : Nat := 1 <<< x

def MAX_PARSE_DEPTH : Nat := 6

def e_elem_ctl : Nat := 0
def e_elem_path : Nat := 1
def e_elem_device : Nat := 2
def e_elem_stream : Nat := 3
def e_elem_enable : Nat := 4
def e_elem_disable : Nat := 5
def e_elem_case : Nat := 6
def e_elem_usecase : Nat := 7
def e_elem_set : Nat := 8
def e_elem_stream_ctl : Nat := 9
def e_elem_init : Nat := 10
def e_elem_pre_init : Nat := 11
def e_elem_mixer : Nat := 12
def e_elem_audiohal : Nat := 13
def e_elem_codec_probe : Nat := 14
def e_elem_codec_case : Nat := 15
def e_elem_count : Nat := 16

def e_attrib_name : Nat := 0
def e_attrib_val : Nat := 1
def e_attrib_path : Nat := 2
def e_attrib_function : Nat := 3
def e_attrib_type : Nat := 4
def e_attrib_index : Nat := 5
def e_attrib_dir : Nat := 6
def e_attrib_card : Nat := 7
def e_attrib_device : Nat := 8
def e_attrib_instances : Nat := 9
def e_attrib_rate : Nat := 10
def e_attrib_period_size : Nat := 11
def e_attrib_period_count : Nat := 12
def e_attrib_min : Nat := 13
def e_attrib_max : Nat := 14
def e_attrib_file : Nat := 15
def e_attrib_count : Nat := 16

def attrib_name : Nat → String
  | 0 => "name"
  | 1 => "val"
  | 2 => "path"
  | 3 => "function"
  | 4 => "type"
  | 5 => "index"
  | 6 => "dir"
  | 7 => "card"
  | 8 => "device"
  | 9 => "instances"
  | 10 => "rate"
  | 11 => "period_size"
  | 12 => "period_count"
  | 13 => "min"
  | 14 => "max"
  | 15 => "file"
  | _ => ""

def elem_name : Nat → String
  | 0 => "ctl"
  | 1 => "path"
  | 2 => "device"
  | 3 => "stream"
  | 4 => "enable"
  | 5 => "disable"
  | 6 => "case"
  | 7 => "usecase"
  | 8 => "set"
  | 9 => "ctl"
  | 10 => "init"
  | 11 => "pre_init"
  | 12 => "mixer"
  | 13 => "audiohal"
  | 14 => "codec_probe"
  | 15 => "case"
  | _ => ""

def elem_valid_attribs : Nat → Nat
  | 0 => BIT e_attrib_name ||| BIT e_attrib_val ||| BIT e_attrib_index ||| BIT e_attrib_file
  | 1 => BIT e_attrib_name
  | 2 => BIT e_attrib_name
  | 3 => BIT e_attrib_name ||| BIT e_attrib_type ||| BIT e_attrib_dir ||| BIT e_attrib_card
          ||| BIT e_attrib_device ||| BIT e_attrib_instances ||| BIT e_attrib_rate
          ||| BIT e_attrib_period_size ||| BIT e_attrib_period_count
  | 4 => BIT e_attrib_path
  | 5 => BIT e_attrib_path
  | 6 => BIT e_attrib_name
  | 7 => BIT e_attrib_name
  | 8 => BIT e_attrib_name ||| BIT e_attrib_val
  | 9 => BIT e_attrib_name ||| BIT e_attrib_function ||| BIT e_attrib_index
          ||| BIT e_attrib_min ||| BIT e_attrib_max
  | 10 => 0
  | 11 => 0
  | 12 => BIT e_attrib_name ||| BIT e_attrib_card
  | 13 => 0
  | 14 => BIT e_attrib_file
  | 15 => BIT e_attrib_name ||| BIT e_attrib_file
  | _ => 0

def elem_required_attribs : Nat → Nat
  | 0 => BIT e_attrib_name
  | 1 => BIT e_attrib_name
  | 2 => BIT e_attrib_name
  | 3 => BIT e_attrib_type
  | 4 => BIT e_attrib_path
  | 5 => BIT e_attrib_path
  | 6 => BIT e_attrib_name
  | 7 => BIT e_attrib_name
  | 8 => BIT e_attrib_name ||| BIT e_attrib_val
  | 9 => BIT e_attrib_name ||| BIT e_attrib_function
  | 14 => BIT e_attrib_file
  | 15 => BIT e_attrib_name ||| BIT e_attrib_file
  | _ => 0

def elem_valid_subelem : Nat → Nat
  | 1 => BIT e_elem_ctl
  | 2 => BIT e_elem_path
  | 3 => BIT e_elem_stream_ctl ||| BIT e_elem_enable ||| BIT e_elem_disable
          ||| BIT e_elem_usecase ||| BIT e_elem_set
  | 6 => BIT e_elem_ctl
  | 7 => BIT e_elem_case
  | 10 => BIT e_elem_ctl
  | 11 => BIT e_elem_ctl
  | 12 => BIT e_elem_pre_init ||| BIT e_elem_init
  | 13 => BIT e_elem_mixer ||| BIT e_elem_codec_probe
  | 14 => BIT e_elem_codec_case
  | _ => 0

/-- Attribute values extracted for one element, indexed by attribute id. -/
def AttrVals := List (Option String)

def attr_get (vals : AttrVals) (i : Nat) : Option String :=
  List.getD vals i none

/-- The inner search of `extract_attribs`: first attribute id that is valid
for this element and has the given name. -/
def find_attrib_go (valid : Nat) (an : String) : Nat → Nat → Option Nat
  | 0, _ => none
  | c + 1, i =>
    if valid.testBit i ∧ attrib_name i = an then some i
    else find_attrib_go valid an c (i + 1)

def find_attrib_index (valid : Nat) (an : String) : Option Nat :=
  find_attrib_go valid an e_attrib_count 0

/-- The attribute loop of `extract_attribs`: each attribute must be valid
for the element (else the whole element is rejected), later occurrences of
the same attribute overwrite earlier ones, and the required-mask bits are
cleared as the attributes arrive. -/
def extract_attribs_go (valid : Nat) :
    List (String × String) → AttrVals → Nat → Option (AttrVals × Nat)
  | [], vals, req => some (vals, req)
  | (an, av) :: rest, vals, req =>
    match find_attrib_index valid an with
    | none => none
    | some i =>
      extract_attribs_go valid rest (List.set vals i (some av))
        (req &&& (0xFFFF ^^^ BIT i))

def extract_attribs (ei : Nat) (attrs : List (String × String)) : Option AttrVals :=
  match extract_attribs_go (elem_valid_attribs ei) attrs
      (List.replicate e_attrib_count none) (elem_required_attribs ei) with
  | some (vals, req) => if req ≠ 0 then none else some vals
  | none => none

/-- First element id among the currently legal ones with this tag name. -/
def find_elem_go (valid : Nat) (n : String) : Nat → Nat → Option Nat
  | 0, _ => none
  | c + 1, i =>
    if valid.testBit i ∧ elem_name i = n then some i
    else find_elem_go valid n c (i + 1)

def find_elem (valid : Nat) (n : String) : Option Nat :=
  find_elem_go valid n e_elem_count 0

/-! ### Loader state and environment -/

structure CodecCase where
  codec_name : String
  cfile : String
deriving DecidableEq, Repr

/-- `struct codec_probe` (the single `init_probe` of the parse state). -/
structure CodecProbeState where
  file : Option String
  new_xml_file : Option String
  cases : List CodecCase
deriving DecidableEq, Repr

/-- Which path object `state->current.path` points at. -/
inductive CurPath where
  | dev (di pi : Nat)
  | ini
  | preini
deriving DecidableEq, Repr

/-- `struct parse_state` (the parts with observable effect). -/
structure ParseState where
  cm : ConfigMgr
  cur_xml_file : String
  mixer_card : Nat
  path_names : List String
  cur_device : Option Nat
  cur_stream : Option StreamLoc
  cur_path : Option CurPath
  cur_usecase : Option Nat
  cur_case : Option Nat
  init_path : Path
  preinit_path : Path
  probe : CodecProbeState
deriving DecidableEq, Repr

/-- The runtime environment the loader reads: mixers by card number, sound
card names (for `<mixer name=...>`), byte-payload data files, codec-probe
text files and the config files themselves. -/
structure Env where
  mixers : List (Nat × Mixer)
  cards : List (Nat × String)
  dataFiles : DataFiles
  textFiles : List (String × String)
  xmlFiles : List (String × Xml)

def lookup_str {α : Type} (l : List (String × α)) (k : String) : Option α :=
  match l.find? (fun p => p.1 = k) with
  | some p => some p.2
  | none => none

def lookup_nat {α : Type} (l : List (Nat × α)) (k : Nat) : Option α :=
  match l.find? (fun p => p.1 = k) with
  | some p => some p.2
  | none => none

/-- `find_path_name`: search the de-duplicated name table from the top. -/
def find_path_name_go (names : List String) (name : String) : Nat → Option Nat
  | 0 => none
  | i + 1 =>
    match names[i]? with
    | some n => if n = name then some i else find_path_name_go names name i
    | none => find_path_name_go names name i

def find_path_name (names : List String) (name : String) : Option Nat :=
  find_path_name_go names name names.length

/-- `add_path_name`: existing index, or append (`new_name`). -/
def add_path_name (names : List String) (name : String) : List String × Nat :=
  match find_path_name names name with
  | some i => (names, i)
  | none => (names ++ [name], names.length)

def skip_spaces (s : String) : String :=
  String.mk (s.toList.dropWhile isSpaceC)

def last_slash_idx (cs : List Char) : Option Nat :=
  match cs.reverse.findIdx? (fun c => c = '/') with
  | none => none
  | some j => some (cs.length - 1 - j)

/-- `join_paths`: base path (optionally stripped of its leaf, or of a
trailing slash) joined to a file name with a single slash. -/
def join_paths (base : String) (file : String) (strip_leaf : Bool) : String :=
  let bl := base.toList
  let base_len :=
    if strip_leaf then
      match last_slash_idx bl with
      | none => 0
      | some p => p
    else
      if bl ≠ [] ∧ bl.getLast? = some '/' then bl.length - 1 else bl.length
  String.mk (bl.take base_len) ++ "/" ++ file

/-- The shared file-attribute handling of `parse_codec_probe_start` and
`parse_codec_case_start`: skip leading spaces, keep absolute paths as-is,
make others relative to the directory of the current config file. -/
def resolve_probe_path (cur_xml : String) (file : String) : String :=
  let f := skip_spaces file
  if f.toList.headD ' ' = '/' then f else join_paths cur_xml f true

/-- The `device_table` of the parser, in source order. -/
def device_table : List (String × Nat) :=
  [("global", 0),
   ("speaker", AUDIO_DEVICE_OUT_SPEAKER),
   ("earpiece", AUDIO_DEVICE_OUT_EARPIECE),
   ("headset", AUDIO_DEVICE_OUT_WIRED_HEADSET),
   ("headset_in", AUDIO_DEVICE_IN_WIRED_HEADSET),
   ("headphone", AUDIO_DEVICE_OUT_WIRED_HEADPHONE),
   ("sco", AUDIO_DEVICE_OUT_ALL_SCO),
   ("sco_in", AUDIO_DEVICE_IN_ALL_SCO),
   ("a2dp", AUDIO_DEVICE_OUT_ALL_A2DP),
   ("usb", AUDIO_DEVICE_OUT_ALL_USB),
   ("mic", AUDIO_DEVICE_IN_BUILTIN_MIC),
   ("back mic", AUDIO_DEVICE_IN_BACK_MIC),
   ("voice", AUDIO_DEVICE_IN_VOICE_CALL),
   ("aux", AUDIO_DEVICE_IN_AUX_DIGITAL)]

def parse_match_device (name : String) : Option Nat :=
  lookup_str device_table name

def attrib_to_uint (vals : AttrVals) (i : Nat) : Except Int Nat :=
  string_to_uint (attr_get vals i)

def attrib_to_int (vals : AttrVals) (i : Nat) : Except Int Int :=
  string_to_int (attr_get vals i)

/-- The `attrib_to_uint` idiom of `parse_stream_start`: an absent attribute
keeps the default, an invalid one fails the element. -/
def uint_attr_or (vals : AttrVals) (i : Nat) (dflt : Nat) : Except Int Nat :=
  match attrib_to_uint vals i with
  | .ok v => .ok v
  | .error e => if e = -ENOENT then .ok dflt else .error (-EINVAL)

def list_modify {α : Type} (l : List α) (i : Nat) (f : α → α) : List α :=
  match l[i]? with
  | none => l
  | some x => l.set i (f x)

def modifyStreamAt (cm : ConfigMgr) (loc : StreamLoc) (f : Stream → Stream) : ConfigMgr :=
  match getStreamAt cm loc with
  | none => cm
  | some s => setStreamAt cm loc (f s)

/-! ### Loader element handlers -/

/-- Result of `parse_section_end` handlers: the updated state, the updated
sibling mask of the parent stack entry, and how the walk continues
(only `parse_codec_probe_end` can suspend or abort the parser). -/
inductive WalkStatus where
  | ok
  | err (e : Int)
  | suspend
  | abort
  | blocked
deriving DecidableEq, Repr

def parse_set_mixer (env : Env) (st : ParseState) (card : Nat) (valid : Nat) :
    Except Int (ParseState × Nat) :=
  match lookup_nat env.mixers card with
  | none => .error (-EINVAL)
  | some mx =>
    .ok ({ st with cm := { st.cm with mixer := mx }, mixer_card := card }, valid)

def get_card_id_for_name (env : Env) (name : Option String) : Except Int Nat :=
  match name with
  | none => .error (-EINVAL)
  | some n =>
    match env.cards.find? (fun p => p.2 = n) with
    | some p => .ok p.1
    | none => .error (-EINVAL)

def parse_mixer_start (env : Env) (st : ParseState) (vals : AttrVals) (valid : Nat) :
    Except Int (ParseState × Nat) :=
  match attrib_to_uint vals e_attrib_card with
  | .ok card =>
    if (attr_get vals e_attrib_name).isSome then .error (-EINVAL)
    else parse_set_mixer env st card valid
  | .error _ =>
    match get_card_id_for_name env (attr_get vals e_attrib_name) with
    | .error e => .error e
    | .ok card => parse_set_mixer env st card valid

/-- `parse_mixer_end`: from now on only devices and streams are legal at
the root (in particular no second `<mixer>` and no `<codec_probe>`). -/
def parse_mixer_end (_env : Env) (st : ParseState) (_valid : Nat) :
    Except Int (ParseState × Nat × WalkStatus) :=
  .ok (st, BIT e_elem_device ||| BIT e_elem_stream, .ok)

def parse_preinit_start (_env : Env) (st : ParseState) (_vals : AttrVals) (valid : Nat) :
    Except Int (ParseState × Nat) :=
  .ok ({ st with cur_path := some .preini }, valid)

/-- `parse_preinit_end`: apply the collected controls now (the hardware
writes happen at load time and are not kept) and re-open the mixer to pick
up controls the writes may have created; a failed re-open fails the load. -/
def parse_preinit_end (env : Env) (st : ParseState) (valid : Nat) :
    Except Int (ParseState × Nat × WalkStatus) :=
  let r := apply_path_l st.cm.mixer env.dataFiles st.preinit_path
  match lookup_nat env.mixers st.mixer_card with
  | none => .error (-EINVAL)
  | some mx =>
    .ok ({ st with cur_path := none, preinit_path := r.1, cm := { st.cm with mixer := mx } }, valid, .ok)

def parse_init_start (_env : Env) (st : ParseState) (_vals : AttrVals) (valid : Nat) :
    Except Int (ParseState × Nat) :=
  .ok ({ st with cur_path := some .ini },
    valid &&& (0xFFFF ^^^ (BIT e_elem_pre_init ||| BIT e_elem_init)))

def parse_init_end (_env : Env) (st : ParseState) (valid : Nat) :
    Except Int (ParseState × Nat × WalkStatus) :=
  .ok ({ st with cur_path := none }, valid, .ok)

def parse_device_start (_env : Env) (st : ParseState) (vals : AttrVals) (valid : Nat) :
    Except Int (ParseState × Nat) :=
  match attr_get vals e_attrib_name with
  | none => .error (-EINVAL)
  | some dn =>
    match parse_match_device dn with
    | none => .error (-EINVAL)
    | some flag =>
      let updated : Option ConfigMgr :=
        if flag ≠ 0 then
          if flag &&& AUDIO_DEVICE_BIT_IN ≠ 0 then
            if (flag &&& st.cm.supported_input_devices) = flag then none
            else some { st.cm with
              supported_input_devices := st.cm.supported_input_devices ||| flag }
          else
            if (flag &&& st.cm.supported_output_devices) = flag then none
            else some { st.cm with
              supported_output_devices := st.cm.supported_output_devices ||| flag }
        else some st.cm
      match updated with
      | none => .error (-EINVAL)
      | some cm1 =>
        .ok ({ st with
          cm := { cm1 with
            devices := cm1.devices ++ [{ dtype := flag, use_count := 0, paths := [] }] },
          cur_device := some cm1.devices.length }, valid)

def parse_device_end (_env : Env) (st : ParseState) (valid : Nat) :
    Except Int (ParseState × Nat × WalkStatus) :=
  .ok (st, valid, .ok)

def parse_path_start (_env : Env) (st : ParseState) (vals : AttrVals) (valid : Nat) :
    Except Int (ParseState × Nat) :=
  match attr_get vals e_attrib_name with
  | none => .error (-EINVAL)
  | some nm =>
    let r := add_path_name st.path_names nm
    match st.cur_device with
    | none => .error (-EINVAL)
    | some di =>
      match st.cm.devices[di]? with
      | none => .error (-EINVAL)
      | some d =>
        let d1 : Device := { d with paths := d.paths ++ [{ id := (r.2 : Int), ctls := [] }] }
        let cm1 : ConfigMgr := { st.cm with devices := st.cm.devices.set di d1 }
        .ok ({ st with path_names := r.1, cm := cm1, cur_path := some (.dev di d.paths.length) }, valid)

def parse_path_end (_env : Env) (st : ParseState) (valid : Nat) :
    Except Int (ParseState × Nat × WalkStatus) :=
  .ok ({ st with cur_path := none }, valid, .ok)

/-- Append a parsed control to the object `state->current` points at:
a device path, the init/pre-init path, or the current use-case case. -/
def add_ctl_to_target (st : ParseState) (c : Ctl) : Option ParseState :=
  match st.cur_path with
  | some (.dev di pi) =>
    let devs := list_modify st.cm.devices di (fun d =>
      { d with paths := list_modify d.paths pi (fun p => { p with ctls := p.ctls ++ [c] }) })
    some { st with cm := { st.cm with devices := devs } }
  | some .ini =>
    some { st with init_path := { st.init_path with ctls := st.init_path.ctls ++ [c] } }
  | some .preini =>
    some { st with preinit_path := { st.preinit_path with ctls := st.preinit_path.ctls ++ [c] } }
  | none =>
    match st.cur_stream, st.cur_usecase, st.cur_case with
    | some loc, some uci, some ci =>
      some (modifyStreamAt st.cm loc (fun s =>
        { s with usecases := list_modify s.usecases uci (fun uc =>
          { uc with cases := list_modify uc.cases ci (fun sc =>
            { sc with ctls := sc.ctls ++ [c] }) }) }) |> fun cm1 => { st with cm := cm1 })
    | _, _, _ => none

/-- The attribute-to-`struct ctl` part of `parse_ctl_start`: name
(required), optional index, then either a data file name or the value
string.  The source passes a missing `val` attribute to `strdup(NULL)`;
modelled as a load failure. -/
def parse_ctl_build (vals : AttrVals) : Except Int Ctl :=
  match attr_get vals e_attrib_name with
  | none => .error (-EINVAL)
  | some nm =>
    match
      (match attrib_to_uint vals e_attrib_index with
       | .ok v => .ok { new_ctl nm with index := v }
       | .error e => if e = -ENOENT then .ok (new_ctl nm) else .error (-EINVAL) :
        Except Int Ctl) with
    | .error e => .error e
    | .ok c1 =>
      match attr_get vals e_attrib_file with
      | some f => .ok { c1 with data_file_name := some f }
      | none =>
        match attr_get vals e_attrib_val with
        | some v => .ok { c1 with value := .str v }
        | none => .error (-EINVAL)

def parse_ctl_start (env : Env) (st : ParseState) (vals : AttrVals) (valid : Nat) :
    Except Int (ParseState × Nat) :=
  match parse_ctl_build vals with
  | .error e => .error e
  | .ok c2 =>
    match ctl_open st.cm.mixer env.dataFiles c2 with
    | .error e =>
      if e = -ENOENT then
        -- control not found: keep it unresolved for lazy open on use
        match add_ctl_to_target st c2 with
        | some st1 => .ok (st1, valid)
        | none => .error (-EINVAL)
      else .error e
    | .ok c3 =>
      match add_ctl_to_target st c3 with
      | some st1 => .ok (st1, valid)
      | none => .error (-EINVAL)

def UINT_MAX_N : Nat := 0xFFFFFFFF

def INT_MAX_N : Nat := 0x7FFFFFFF

def parse_stream_dir (global : Bool) (dir : Option String) : Except Int Bool :=
  match dir with
  | none => if global then .ok true else .error (-EINVAL)
  | some d =>
    if d = "out" then .ok true
    else if d = "in" then .ok false
    else .error (-EINVAL)

def parse_stream_type (global : Bool) (name : Option String) (out : Bool)
    (ty : Option String) : Except Int StreamType :=
  if global then .ok .global
  else
    match ty with
    | none => .error (-EINVAL)
    | some t =>
      if t = "hw" then
        if name = none then .error (-EINVAL)
        else .ok (if out then .out_hw else .in_hw)
      else if t = "pcm" then .ok (if out then .out_pcm else .in_pcm)
      else if t = "compress" then .ok (if out then .out_compress else .in_compress)
      else .error (-EINVAL)

/-- The `attrib_to_uint` sequence of `parse_stream_start`: card (default:
current mixer card), device (default `UINT_MAX`), instances (default
`INT_MAX`), rate, period_count, period_size (calloc defaults 0); any
malformed value fails the element with `-EINVAL`. -/
def parse_stream_uints (st : ParseState) (vals : AttrVals) :
    Except Int (Nat × Nat × Nat × Nat × Nat × Nat) :=
  match uint_attr_or vals e_attrib_card st.mixer_card with
  | .error e => .error e
  | .ok card =>
    match uint_attr_or vals e_attrib_device UINT_MAX_N with
    | .error e => .error e
    | .ok device =>
      match uint_attr_or vals e_attrib_instances INT_MAX_N with
      | .error e => .error e
      | .ok maxref =>
        match uint_attr_or vals e_attrib_rate 0 with
        | .error e => .error e
        | .ok rate =>
          match uint_attr_or vals e_attrib_period_count 0 with
          | .error e => .error e
          | .ok pcount =>
            match uint_attr_or vals e_attrib_period_size 0 with
            | .error e => .error e
            | .ok psize => .ok (card, device, maxref, rate, pcount, psize)

/-- The validation part of `parse_stream_start`: duplicate-name check,
direction, type, and the numeric attributes, producing the stream record. -/
def parse_stream_build (st : ParseState) (vals : AttrVals) : Except Int Stream :=
  let name := attr_get vals e_attrib_name
  let dup : Bool :=
    match name with
    | some n => (find_named_stream st.cm n).isSome
    | none => false
  if dup then .error (-EINVAL)
  else
    let global := name = some "global"
    match parse_stream_dir global (attr_get vals e_attrib_dir) with
    | .error e => .error e
    | .ok out =>
      match parse_stream_type global name out (attr_get vals e_attrib_type) with
      | .error e => .error e
      | .ok ty =>
        match parse_stream_uints st vals with
        | .error e => .error e
        | .ok u =>
          .ok { new_stream_defaults with
            stype := ty, name := name, card_number := u.1, device_number := u.2.1,
            rate := u.2.2.2.1, period_count := u.2.2.2.2.1, period_size := u.2.2.2.2.2,
            max_ref_count := (u.2.2.1 : Int) }

def parse_stream_start (_env : Env) (st : ParseState) (vals : AttrVals) (valid : Nat) :
    Except Int (ParseState × Nat) :=
  match parse_stream_build st vals with
  | .error e => .error e
  | .ok s =>
    if (attr_get vals e_attrib_name).isSome then
      .ok ({ st with
        cm := { st.cm with named_streams := st.cm.named_streams ++ [s] },
        cur_stream := some (.named st.cm.named_streams.length) }, valid)
    else
      .ok ({ st with
        cm := { st.cm with anon_streams := st.cm.anon_streams ++ [s] },
        cur_stream := some (.anon st.cm.anon_streams.length) }, valid)

def parse_stream_end (_env : Env) (st : ParseState) (valid : Nat) :
    Except Int (ParseState × Nat × WalkStatus) :=
  .ok (st, valid, .ok)

/-- `parse_enable_disable_start`: the referenced path name must already be
in the path-name table; record its id on the current stream. -/
def parse_enable_disable_start (st : ParseState) (vals : AttrVals) (valid : Nat)
    (is_en : Bool) : Except Int (ParseState × Nat) :=
  match attr_get vals e_attrib_path with
  | none => .error (-EINVAL)
  | some pn =>
    match find_path_name st.path_names pn with
    | none => .error (-EINVAL)
    | some i =>
      match st.cur_stream with
      | none => .error (-EINVAL)
      | some loc =>
        .ok ({ st with cm := modifyStreamAt st.cm loc (fun s =>
          if is_en then { s with enable_path := (i : Int) }
          else { s with disable_path := (i : Int) }) }, valid)

def parse_enable_start (_env : Env) (st : ParseState) (vals : AttrVals) (valid : Nat) :
    Except Int (ParseState × Nat) :=
  parse_enable_disable_start st vals valid true

def parse_disable_start (_env : Env) (st : ParseState) (vals : AttrVals) (valid : Nat) :
    Except Int (ParseState × Nat) :=
  parse_enable_disable_start st vals valid false

def parse_stream_ctl_start (_env : Env) (st : ParseState) (vals : AttrVals) (valid : Nat) :
    Except Int (ParseState × Nat) :=
  match attr_get vals e_attrib_name with
  | none => .error (-EINVAL)
  | some nm =>
    match mixer_get_ctl_by_name st.cm.mixer nm with
    | none => .error (-EINVAL)
    | some r =>
      if r.2.ctype ≠ .int then .error (-EINVAL)
      else
        let idxE : Except Int Nat :=
          match attr_get vals e_attrib_index with
          | none => .ok 0
          | some _ =>
            match attrib_to_uint vals e_attrib_index with
            | .ok v => .ok v
            | .error _ => .error (-EINVAL)
        match idxE with
        | .error e => .error e
        | .ok idx =>
          let fnE : Except Int Bool :=
            match attr_get vals e_attrib_function with
            | none => .error (-EINVAL)
            | some f =>
              if f = "leftvol" then .ok true
              else if f = "rightvol" then .ok false
              else .error (-EINVAL)
          match fnE with
          | .error e => .error e
          | .ok isLeft =>
            let minE : Except Int Int :=
              match attrib_to_int vals e_attrib_min with
              | .ok v => .ok v
              | .error e => if e = -ENOENT then .ok r.2.range_min else .error (-EINVAL)
            let maxE : Except Int Int :=
              match attrib_to_int vals e_attrib_max with
              | .ok v => .ok v
              | .error e => if e = -ENOENT then .ok r.2.range_max else .error (-EINVAL)
            match minE, maxE with
            | .ok mn, .ok mx =>
              let sc : StreamControl := { ref := some r.1, index := idx, min := mn, max := mx }
              match st.cur_stream with
              | none => .error (-EINVAL)
              | some loc =>
                .ok ({ st with cm := modifyStreamAt st.cm loc (fun s =>
                  if isLeft then { s with volume_left := sc }
                  else { s with volume_right := sc }) }, valid)
            | _, _ => .error (-EINVAL)

def parse_usecase_start (_env : Env) (st : ParseState) (vals : AttrVals) (valid : Nat) :
    Except Int (ParseState × Nat) :=
  match attr_get vals e_attrib_name with
  | none => .error (-EINVAL)
  | some nm =>
    match st.cur_stream with
    | none => .error (-EINVAL)
    | some loc =>
      match getStreamAt st.cm loc with
      | none => .error (-EINVAL)
      | some s =>
        let st1 := { st with
          cm := setStreamAt st.cm loc { s with usecases := s.usecases ++ [{ name := nm, cases := [] }] },
          cur_usecase := some s.usecases.length }
        .ok (st1, valid)

def parse_usecase_end (_env : Env) (st : ParseState) (valid : Nat) :
    Except Int (ParseState × Nat × WalkStatus) :=
  .ok (st, valid, .ok)

def parse_case_start (_env : Env) (st : ParseState) (vals : AttrVals) (valid : Nat) :
    Except Int (ParseState × Nat) :=
  match attr_get vals e_attrib_name with
  | none => .error (-EINVAL)
  | some nm =>
    match st.cur_stream, st.cur_usecase with
    | some loc, some uci =>
      match getStreamAt st.cm loc with
      | none => .error (-EINVAL)
      | some s =>
        match s.usecases[uci]? with
        | none => .error (-EINVAL)
        | some uc =>
          let uc1 : UseCase := { uc with cases := uc.cases ++ [{ name := nm, ctls := [] }] }
          let st1 := { st with
            cm := setStreamAt st.cm loc { s with usecases := s.usecases.set uci uc1 },
            cur_case := some uc.cases.length }
          .ok (st1, valid)
    | _, _ => .error (-EINVAL)

def parse_case_end (_env : Env) (st : ParseState) (valid : Nat) :
    Except Int (ParseState × Nat × WalkStatus) :=
  .ok ({ st with cur_case := none }, valid, .ok)

def parse_set_start (_env : Env) (st : ParseState) (vals : AttrVals) (valid : Nat) :
    Except Int (ParseState × Nat) :=
  match attr_get vals e_attrib_name, attr_get vals e_attrib_val with
  | some nm, some v =>
    match st.cur_stream with
    | none => .error (-EINVAL)
    | some loc =>
      .ok ({ st with cm := modifyStreamAt st.cm loc (fun s =>
        { s with constants := s.constants ++ [(nm, v)] }) }, valid)
  | _, _ => .error (-EINVAL)

def parse_codec_probe_start (_env : Env) (st : ParseState) (vals : AttrVals) (valid : Nat) :
    Except Int (ParseState × Nat) :=
  match attr_get vals e_attrib_file with
  | none => .error (-EINVAL)
  | some f =>
    let file := resolve_probe_path st.cur_xml_file f
    match st.probe.file with
    | none => .ok ({ st with probe := { st.probe with file := some file } }, valid)
    | some _ => .error (-EINVAL)

def parse_codec_case_start (_env : Env) (st : ParseState) (vals : AttrVals) (valid : Nat) :
    Except Int (ParseState × Nat) :=
  match attr_get vals e_attrib_name, attr_get vals e_attrib_file with
  | some nm, some f =>
    let file := resolve_probe_path st.cur_xml_file f
    .ok ({ st with probe := { st.probe with
      cases := st.probe.cases ++ [{ codec_name := nm, cfile := file }] } }, valid)
  | _, _ => .error (-EINVAL)

/-- `fgets(buf, 40, fp)` on the whole file content: `none` at immediate
end-of-file, otherwise up to 39 characters of the first line. -/
def fgets_line : List Char → Nat → List Char
  | _, 0 => []
  | [], _ => []
  | c :: rest, n + 1 => if c = '\n' then [c] else c :: fgets_line rest n

def fgets40 (content : String) : Option String :=
  if content.toList = [] then none
  else some (String.mk (fgets_line content.toList 39))

/-- `probe_trim_spaces`. -/
def trimC (s : String) : String :=
  String.mk (((s.toList.dropWhile isSpaceC).reverse.dropWhile isSpaceC).reverse)

/-- What `probe_config_file` can do to the parse: block forever on a
missing probe file, let the parse continue, abort it (self-redirect) or
suspend it for a redirect to a new config file. -/
inductive ProbeResult where
  | blocked
  | proceed (st : ParseState)
  | selfRedirect (st : ParseState)
  | redirect (st : ParseState)
deriving Repr

def probe_config_file (env : Env) (st : ParseState) : ProbeResult :=
  match st.probe.file with
  | none => .blocked
  | some f =>
    match lookup_str env.textFiles f with
    | none => .blocked
    | some content =>
      match fgets40 content with
      | none => .proceed st
      | some buf =>
        let codec := trimC buf
        let st1 := { st with probe := { st.probe with new_xml_file := none } }
        match st.probe.cases.find? (fun cc => cc.codec_name = codec) with
        | none => .proceed st1
        | some cc =>
          if cc.cfile = st.cur_xml_file then .selfRedirect st1
          else .redirect { st1 with probe := { st1.probe with new_xml_file := some cc.cfile } }

/-- `parse_codec_probe_end`: run the probe, ignoring its return value; the
parser is stopped through `XML_StopParser` (abort on self-redirect, suspend
on redirect). -/
def parse_codec_probe_end (env : Env) (st : ParseState) (valid : Nat) :
    Except Int (ParseState × Nat × WalkStatus) :=
  match probe_config_file env st with
  | .blocked => .ok (st, valid, .blocked)
  | .proceed st1 => .ok (st1, valid, .ok)
  | .selfRedirect st1 => .ok (st1, valid, .abort)
  | .redirect st1 => .ok (st1, valid, .suspend)

/-- The `start_fn` column of `elem_table`. -/
def run_start_fn (env : Env) (ei : Nat) (st : ParseState) (vals : AttrVals) (valid : Nat) :
    Except Int (ParseState × Nat) :=
  if ei = e_elem_ctl then parse_ctl_start env st vals valid
  else if ei = e_elem_path then parse_path_start env st vals valid
  else if ei = e_elem_device then parse_device_start env st vals valid
  else if ei = e_elem_stream then parse_stream_start env st vals valid
  else if ei = e_elem_enable then parse_enable_start env st vals valid
  else if ei = e_elem_disable then parse_disable_start env st vals valid
  else if ei = e_elem_case then parse_case_start env st vals valid
  else if ei = e_elem_usecase then parse_usecase_start env st vals valid
  else if ei = e_elem_set then parse_set_start env st vals valid
  else if ei = e_elem_stream_ctl then parse_stream_ctl_start env st vals valid
  else if ei = e_elem_init then parse_init_start env st vals valid
  else if ei = e_elem_pre_init then parse_preinit_start env st vals valid
  else if ei = e_elem_mixer then parse_mixer_start env st vals valid
  else if ei = e_elem_codec_probe then parse_codec_probe_start env st vals valid
  else if ei = e_elem_codec_case then parse_codec_case_start env st vals valid
  else .ok (st, valid)

/-- The `end_fn` column of `elem_table`. -/
def run_end_fn (env : Env) (ei : Nat) (st : ParseState) (valid : Nat) :
    Except Int (ParseState × Nat × WalkStatus) :=
  if ei = e_elem_path then parse_path_end env st valid
  else if ei = e_elem_device then parse_device_end env st valid
  else if ei = e_elem_stream then parse_stream_end env st valid
  else if ei = e_elem_case then parse_case_end env st valid
  else if ei = e_elem_usecase then parse_usecase_end env st valid
  else if ei = e_elem_init then parse_init_end env st valid
  else if ei = e_elem_pre_init then parse_preinit_end env st valid
  else if ei = e_elem_mixer then parse_mixer_end env st valid
  else if ei = e_elem_codec_probe then parse_codec_probe_end env st valid
  else .ok (st, valid, .ok)

/-! ### The document walk (`parse_section_start` / `parse_section_end`) -/

mutual
/-- One element, arriving at stack depth `pidx + 1` with the parent's
current `valid_subelem` mask `pvalid`: element lookup and depth check,
`extract_attribs`, the element's `start_fn`, its children, then its
`end_fn`.  Returns the state, the parent's (possibly updated) mask and the
walk status.  A failing step sets `parse_error`, after which no further
handler runs, so errors short-circuit. -/
def walkElem (env : Env) (st : ParseState) (pvalid : Nat) (pidx : Nat) :
    Xml → ParseState × Nat × WalkStatus
  | .elem n attrs children =>
    match find_elem pvalid n with
    | none => (st, pvalid, .err (-EINVAL))
    | some ei =>
      if pidx ≥ MAX_PARSE_DEPTH then (st, pvalid, .err (-EINVAL))
      else
        match extract_attribs ei attrs with
        | none => (st, pvalid, .err (-EINVAL))
        | some vals =>
          match run_start_fn env ei st vals pvalid with
          | .error e => (st, pvalid, .err e)
          | .ok r =>
            let w := walkList env r.1 (elem_valid_subelem ei) (pidx + 1) children
            match w.2.2 with
            | .ok =>
              match run_end_fn env ei w.1 r.2 with
              | .error e => (w.1, r.2, .err e)
              | .ok r2 => (r2.1, r2.2.1, r2.2.2)
            | s => (w.1, r.2, s)

/-- Walk a sibling list, threading the parent's `valid_subelem` mask and
stopping at the first element that does not finish with status `ok`. -/
def walkList (env : Env) (st : ParseState) (pvalid : Nat) (pidx : Nat) :
    List Xml → ParseState × Nat × WalkStatus
  | [] => (st, pvalid, .ok)
  | x :: rest =>
    let r := walkElem env st pvalid pidx x
    match r.2.2 with
    | .ok => walkList env r.1 r.2.1 pidx rest
    | _ => r
end

/-- Result of `do_parse` on one document: the returned error code and the
final state, or divergence (the codec-probe file never appearing). -/
inductive DoParseRes where
  | ret (e : Int) (st : ParseState)
  | blocked
deriving Repr

/-- `do_parse`: fresh stack with only `<audiohal>` legal at the root; a
suspension (probe redirect) is a success, any handler error or parser
abort becomes `-EINVAL` through `parse_log_error`. -/
def do_parse (env : Env) (st : ParseState) (doc : Xml) : DoParseRes :=
  let r := walkElem env st (BIT e_elem_audiohal) 0 doc
  match r.2.2 with
  | .ok => .ret 0 r.1
  | .suspend => .ret 0 r.1
  | .err _ => .ret (-EINVAL) r.1
  | .abort => .ret (-EINVAL) r.1
  | .blocked => .blocked

inductive LoadResult where
  | ok (st : ParseState)
  | err (e : Int)
  | diverge
deriving Repr

def empty_path : Path := { id := 0, ctls := [] }

/-- `init_state` plus the calloc defaults of `parse_state`: "off" and "on"
are pre-defined path names with ids 0 and 1. -/
def initial_parse_state (cm : ConfigMgr) (file : String) : ParseState :=
  { cm := cm, cur_xml_file := file, mixer_card := 0, path_names := ["off", "on"],
    cur_device := none, cur_stream := none, cur_path := none,
    cur_usecase := none, cur_case := none,
    init_path := empty_path, preinit_path := empty_path,
    probe := { file := none, new_xml_file := none, cases := [] } }

/-- The do-while chain of `parse_config_file`: open the current file
(failure is reported as `-ENOMEM`), clear the probe file and redirect
target (keeping the accumulated codec cases), parse, and follow a redirect
to the next file.  `fuel` bounds redirect loops, which the source does not
guard against. -/
def chain_reset (st : ParseState) (file : String) : ParseState :=
  let pr1 : CodecProbeState := { st.probe with file := none, new_xml_file := none }
  { st with cur_xml_file := file, probe := pr1 }

def parse_chain (env : Env) : Nat → ParseState → String → LoadResult
  | 0, _, _ => .diverge
  | fuel + 1, st, file =>
    match lookup_str env.xmlFiles file with
    | none => .err (-ENOMEM)
    | some doc =>
      match do_parse env (chain_reset st file) doc with
      | .blocked => .diverge
      | .ret e st2 =>
        if e ≠ 0 then .err e
        else
          match st2.probe.new_xml_file with
          | none => .ok st2
          | some nf => parse_chain env fuel st2 nf

/-- Observable outcome of `parse_config_file`: the loaded manager and the
writes of the final `<init>` path application, an error code, or
divergence. -/
inductive LoadOutcome where
  | done (cm : ConfigMgr) (writes : List WriteEvent)
  | err (e : Int)
  | diverge
deriving Repr

def parse_config_file_model (env : Env) (fuel : Nat) (cm : ConfigMgr) (file : String) :
    LoadOutcome :=
  match parse_chain env fuel (initial_parse_state cm file) file with
  | .diverge => .diverge
  | .err e => .err e
  | .ok st =>
    let r := apply_path_l st.cm.mixer env.dataFiles st.init_path
    .done st.cm r.2

/-- `new_config_mgr`: the zeroed manager `init_audio_config` starts from. -/
def new_config_mgr : ConfigMgr :=
  { mixer := { ctls := [] }, supported_output_devices := 0,
    supported_input_devices := 0, devices := [], anon_streams := [],
    named_streams := [] }

inductive InitResult where
  | mgr (cm : ConfigMgr)
  | nullMgr
  | diverge
deriving Repr

/-- `init_audio_config` (for an absolute config-file path): parse into a
fresh manager; a non-zero parse result frees the manager and returns NULL. -/
def init_audio_config_model (env : Env) (fuel : Nat) (file : String) : InitResult :=
  match parse_config_file_model env fuel new_config_mgr file with
  | .done cm _ => .mgr cm
  | .err _ => .nullMgr
  | .diverge => .diverge

/-! ### Path-declaration discipline (specification side, for C6)

The spec requires every `<enable path=...>` / `<disable path=...>` to
reference a name already declared by a `<path name=...>` element (or one
of the predefined names "off"/"on").  The following predicate walks a
document in document order, extending the name table at each `<path>`
element and checking each reference, independently of the parser's
state machine. -/

/-- The name a `<path>` element declares (its attribute list read exactly
as `extract_attribs` reads it). -/
def path_decl_name (attrs : List (String × String)) : Option String :=
  match extract_attribs e_elem_path attrs with
  | some vals => attr_get vals e_attrib_name
  | none => none

/-- The path name an `<enable>`/`<disable>` element references. -/
def ref_path_name (ei : Nat) (attrs : List (String × String)) : Option String :=
  match extract_attribs ei attrs with
  | some vals => attr_get vals e_attrib_path
  | none => none

mutual
/-- Document-order declaration check for one element: `<path>` extends the
table through `add_path_name`, `<enable>`/`<disable>` must reference a
name already findable; returns the verdict and the extended table. -/
def refs_checkE (base : List String) : Xml → Bool × List String
  | .elem n attrs children =>
    if n = "enable" ∨ n = "disable" then
      match ref_path_name (if n = "enable" then e_elem_enable else e_elem_disable) attrs with
      | some p => ((find_path_name base p).isSome, base)
      | none => (true, base)
    else
      let base1 :=
        if n = "path" then
          match path_decl_name attrs with
          | some nm => (add_path_name base nm).1
          | none => base
        else base
      refs_checkL base1 children

/-- Document-order declaration check over a sibling list. -/
def refs_checkL (base : List String) : List Xml → Bool × List String
  | [] => (true, base)
  | x :: rest =>
    let r := refs_checkE base x
    if r.1 then refs_checkL r.2 rest else (false, r.2)
end

mutual
/-- No `<codec_probe>` element anywhere in the tree (so the walk can
neither suspend, abort nor block). -/
def no_probeE : Xml → Bool
  | .elem n _ children => decide (n ≠ "codec_probe") && no_probeL children

def no_probeL : List Xml → Bool
  | [] => true
  | x :: rest => no_probeE x && no_probeL rest
end

/-! ### Concrete scenarios used by counterexamples and bug evaluations -/

/-- A device as declared by `<device name="sco">`: the parser's device
table maps "sco" to `AUDIO_DEVICE_OUT_ALL_SCO` (0x70, three bits), here
with empty "off" and "on" paths. -/
def scoDevice : Device :=
  { dtype := AUDIO_DEVICE_OUT_ALL_SCO, use_count := 0,
    paths := [{ id := e_path_id_off, ctls := [] }, { id := e_path_id_on, ctls := [] }] }

/-- A manager with the sco device and one anonymous PCM output stream
(instances = 1), as produced by loading a minimal config. -/
def scoMgr : ConfigMgr :=
  { mixer := { ctls := [] }, supported_output_devices := AUDIO_DEVICE_OUT_ALL_SCO,
    supported_input_devices := 0, devices := [scoDevice],
    anon_streams := [{ new_stream_defaults with stype := .out_pcm, max_ref_count := 1 }],
    named_streams := [] }

/-- Acquire the stream routed to all three sco bits (0x70). -/
def scoStep1 : ConfigMgr := (get_stream [] scoMgr 0x70 0 0).1

/-- Re-route to just `AUDIO_DEVICE_OUT_BLUETOOTH_SCO` (0x10): bits 0x60
leave the routing, which already forces the device's "off" transition. -/
def scoStep2 : ConfigMgr := (apply_route [] scoStep1 (.anon 0) 0x10).1

/-- Route away entirely: the remaining bit 0x10 forces a second "off". -/
def scoStep3 : ConfigMgr := (apply_route [] scoStep2 (.anon 0) 0).1

/-- Release the stream (reference count 1 → 0). -/
def scoStep4 : ConfigMgr := (release_stream [] scoStep3 (.anon 0)).1

/-- Release the already-released stream (reference count 0 → −1). -/
def scoStep5 : ConfigMgr := (release_stream [] scoStep4 (.anon 0)).1

/-- A PCM output stream already holding its full cap of 1 instance. -/
def capStream : Stream :=
  { new_stream_defaults with stype := .out_pcm, max_ref_count := 1, ref_count := 1 }

/-- A manager whose only anonymous stream is at its instance cap. -/
def capMgr : ConfigMgr :=
  { mixer := { ctls := [] }, supported_output_devices := 0,
    supported_input_devices := 0, devices := [],
    anon_streams := [capStream], named_streams := [] }

/-- A manager with one PCM output stream and no devices, for routing a
bitmask that lies outside `AUDIO_DEVICE_OUT_ALL`. -/
def outOnlyMgr : ConfigMgr :=
  { mixer := { ctls := [] }, supported_output_devices := 0,
    supported_input_devices := 0, devices := [],
    anon_streams := [{ new_stream_defaults with stype := .out_pcm, max_ref_count := 1 }],
    named_streams := [] }

/-- A mixer with one integer control, for the use-case witness. -/
def ucMixer : Mixer :=
  { ctls := [{ name := "Vol", ctype := .int, num_values := 1, values := [],
               range_min := 0, range_max := 100 }] }

/-- A parsed control naming the existing mixer control. -/
def ucGoodCtl : Ctl := { new_ctl "Vol" with value := .str "5" }

/-- A parsed control naming a mixer control that does not exist. -/
def ucBadCtl : Ctl := { new_ctl "Missing" with value := .str "7" }

/-- A stream with one use-case whose case has a bindable control followed
by an unbindable one. -/
def ucStream : Stream :=
  { new_stream_defaults with
    usecases := [{ name := "setting",
                   cases := [{ name := "case", ctls := [ucGoodCtl, ucBadCtl] }] }] }

/-- `<audiohal><codec_probe file="/etc/probe.txt"><case name="wm8280"
file="wm8280.xml"/></codec_probe></audiohal>`. -/
def cpDoc : Xml :=
  .elem "audiohal" []
    [.elem "codec_probe" [("file", "/etc/probe.txt")]
      [.elem "case" [("name", "wm8280"), ("file", "wm8280.xml")] []]]

/-- A codec-probe text file whose first line names codec "wm8280". -/
def cpEnv : Env :=
  { mixers := [(0, { ctls := [] })], cards := [], dataFiles := [],
    textFiles := [("/etc/probe.txt", " wm8280\nsecond line")],
    xmlFiles := [("/a.xml", cpDoc), ("/wm8280.xml", Xml.elem "audiohal" [] [])] }

/-- Probe state after the `<codec_probe>` block of `cpDoc` was parsed with
the redirect target differing from the current file. -/
def cpProbeRedir : CodecProbeState :=
  { file := some "/etc/probe.txt", new_xml_file := none,
    cases := [{ codec_name := "wm8280", cfile := "/wm8280.xml" }] }

/-- Parse state at the close of the `<codec_probe>` block: redirect case. -/
def cpStRedir : ParseState :=
  { initial_parse_state new_config_mgr "/a.xml" with probe := cpProbeRedir }

/-- Self-redirect case: the matching codec case names the file being parsed. -/
def cpStSelf : ParseState :=
  { initial_parse_state new_config_mgr "/a.xml" with probe :=
      { cpProbeRedir with cases := [{ codec_name := "wm8280", cfile := "/a.xml" }] } }

/-- No-match case: no codec case for "wm8280". -/
def cpStNone : ParseState :=
  { initial_parse_state new_config_mgr "/a.xml" with probe :=
      { cpProbeRedir with cases := [{ codec_name := "other", cfile := "/b.xml" }] } }

/-- The state in which `do_parse` on `cpDoc` suspends: the whole document
walk up to the suspension point. -/
def cpSt2 : ParseState :=
  match do_parse cpEnv (chain_reset (initial_parse_state new_config_mgr "/a.xml") "/a.xml") cpDoc with
  | .ret _ s => s
  | .blocked => initial_parse_state new_config_mgr "/a.xml"

/-- `<audiohal><mixer card="0"/><stream type="pcm" dir="out">
<enable path="foo"/></stream></audiohal>`: the enable references a path
name never declared. -/
def c6Doc : Xml :=
  .elem "audiohal" []
    [.elem "mixer" [("card", "0")] [],
     .elem "stream" [("type", "pcm"), ("dir", "out")]
       [.elem "enable" [("path", "foo")] []]]

/-- Environment with sound card 0 present and `c6Doc` at "/c6.xml". -/
def c6Env : Env :=
  { mixers := [(0, { ctls := [] })], cards := [], dataFiles := [],
    textFiles := [], xmlFiles := [("/c6.xml", c6Doc)] }

/-! ## Helper lemmas -/

theorem list_set_of_getElem? {α : Type _} (l : List α) (i : Nat) (x : α)
    (h : l[i]? = some x) : l.set i x = l := by
  induction l generalizing i with
  | nil => simp at h
  | cons a t ih =>
    cases i with
    | zero => simp_all
    | succ n => simpa using ih n (by simpa using h)

/-- The mapped value of `set_vol_ctl` is exactly the linear map of the spec
whenever the declared range fits a C `int` (so the final `int` store does
not wrap). -/
theorem vol_ctl_value_eq (mn mx p : Int) (hmn : -(2 ^ 31) ≤ mn) (hmx : mx < 2 ^ 31)
    (hle : mn ≤ mx) (h0 : 0 ≤ p) (h100 : p ≤ 100) :
    vol_ctl_value mn mx p =
      if p = 0 then mn
      else if p = 100 then mx
      else mn + Int.tdiv ((mx - mn) * p) 100 := by
  unfold vol_ctl_value
  split
  · rfl
  split
  · rfl
  have hq0 : 0 ≤ Int.tdiv ((mx - mn) * p) 100 :=
    Int.tdiv_nonneg (mul_nonneg (by omega) h0) (by norm_num)
  have hqd : Int.tdiv ((mx - mn) * p) 100 ≤ mx - mn := by
    have h1 : (mx - mn) * p ≤ (mx - mn) * 100 :=
      mul_le_mul_of_nonneg_left h100 (by omega)
    have h2 : Int.tdiv ((mx - mn) * p) 100 = ((mx - mn) * p) / 100 :=
      Int.tdiv_eq_ediv (mul_nonneg (by omega) h0) (by norm_num)
    have h3 : ((mx - mn) * p) / 100 ≤ ((mx - mn) * 100) / 100 :=
      Int.ediv_le_ediv (by norm_num) h1
    have h4 : ((mx - mn) * 100) / 100 = mx - mn := Int.mul_ediv_cancel _ (by norm_num)
    omega
  unfold toInt32
  omega

theorem apply_path_l_fst_id (m : Mixer) (files : DataFiles) (p : Path) :
    (apply_path_l m files p).1.id = p.id := rfl

/-- `apply_device_path_l` never changes which path id sits at any index of
the device's path array. -/
theorem apply_device_path_l_path_id (m : Mixer) (files : DataFiles) (d : Device)
    (pi j : Nat) :
    (((apply_device_path_l m files d pi).1.paths[j]?).map Path.id) =
      ((d.paths[j]?).map Path.id) := by
  have hset : ∀ (p1 : Path), ((some p1).map Path.id) = (d.paths[pi]?.map Path.id) →
      (((d.paths.set pi p1)[j]?).map Path.id) = ((d.paths[j]?).map Path.id) := by
    intro p1 hid
    rw [List.getElem?_set]
    split
    next heq =>
      subst heq
      split
      next hlen =>
        rw [List.getElem?_eq_getElem hlen] at hid ⊢
        exact hid
      next hlen =>
        rw [List.getElem?_eq_none (by omega : d.paths.length ≤ pi)]
    next hne => rfl
  unfold apply_device_path_l
  rcases hp : d.paths[pi]? with _ | p
  · rfl
  · simp only [hp]
    split_ifs with h0 hskip h1 hskip
    · rfl
    · exact hset _ (by simp [hp, apply_path_l_fst_id])
    · rfl
    · exact hset _ (by simp [hp, apply_path_l_fst_id])
    · exact hset _ (by simp [hp, apply_path_l_fst_id])

/-- Effect of applying an "on" path: the use count always increments, and
the path body runs exactly when the count was 0 (or negative). -/
theorem apply_device_path_l_on (m : Mixer) (files : DataFiles) (d : Device)
    (pi : Nat) (p : Path) (hp : d.paths[pi]? = some p) (hid : p.id = e_path_id_on) :
    (apply_device_path_l m files d pi).1.use_count = d.use_count + 1 ∧
    ((apply_device_path_l m files d pi).2.2 = true ↔ d.use_count + 1 ≤ 1) := by
  unfold apply_device_path_l
  simp only [hp]
  rw [if_neg (by simp [hid, e_path_id_on, e_path_id_off]), if_pos hid]
  by_cases h : d.use_count + 1 > 1 <;> simp [h] <;> omega

/-- Effect of applying an "off" path: the use count always decrements, and
the path body runs exactly when the new count is ≤ 0. -/
theorem apply_device_path_l_off (m : Mixer) (files : DataFiles) (d : Device)
    (pi : Nat) (p : Path) (hp : d.paths[pi]? = some p) (hid : p.id = e_path_id_off) :
    (apply_device_path_l m files d pi).1.use_count = d.use_count - 1 ∧
    ((apply_device_path_l m files d pi).2.2 = true ↔ d.use_count - 1 ≤ 0) := by
  unfold apply_device_path_l
  simp only [hp]
  rw [if_pos hid]
  by_cases h : d.use_count - 1 > 0 <;> simp [h] <;> omega

/-- A custom path (id neither "on" nor "off") always runs and never touches
the use count. -/
theorem apply_device_path_l_custom (m : Mixer) (files : DataFiles) (d : Device)
    (pi : Nat) (p : Path) (hp : d.paths[pi]? = some p)
    (hon : p.id ≠ e_path_id_on) (hoff : p.id ≠ e_path_id_off) :
    (apply_device_path_l m files d pi).2.2 = true ∧
    (apply_device_path_l m files d pi).1.use_count = d.use_count := by
  unfold apply_device_path_l
  simp only [hp]
  rw [if_neg hoff, if_neg hon]
  exact ⟨rfl, rfl⟩

theorem apply_device_path_n_path_id (m : Mixer) (files : DataFiles) (pi j : Nat) :
    ∀ (n : Nat) (d : Device),
      (((apply_device_path_n m files d pi n).1.paths[j]?).map Path.id) =
        ((d.paths[j]?).map Path.id) := by
  intro n
  induction n with
  | zero => intro d; rfl
  | succ k ih =>
    intro d
    show (((apply_device_path_n m files (apply_device_path_l m files d pi).1 pi k).1.paths[j]?).map Path.id) = _
    rw [ih, apply_device_path_l_path_id]

/-- Iterating the "on" path from a positive use count never runs the path
body and adds one reference per application. -/
theorem apply_on_iter (m : Mixer) (files : DataFiles) (pi : Nat) :
    ∀ (n : Nat) (d : Device),
      ((d.paths[pi]?).map Path.id) = some e_path_id_on →
      1 ≤ d.use_count →
      (apply_device_path_n m files d pi n).2 = List.replicate n false ∧
      (apply_device_path_n m files d pi n).1.use_count = d.use_count + n := by
  intro n
  induction n with
  | zero => intro d _ _; exact ⟨rfl, by simp [apply_device_path_n]⟩
  | succ k ih =>
    intro d hid hcnt
    obtain ⟨p, hp, hpid⟩ := Option.map_eq_some'.1 hid
    have hstep := apply_device_path_l_on m files d pi p hp hpid
    have hflag : (apply_device_path_l m files d pi).2.2 = false := by
      rcases hb : (apply_device_path_l m files d pi).2.2 with _ | _
      · rfl
      · exfalso; have := hstep.2.1 hb; omega
    have hrec := ih (apply_device_path_l m files d pi).1
      (by rw [apply_device_path_l_path_id]; exact hid)
      (by rw [hstep.1]; omega)
    refine ⟨?_, ?_⟩
    · show ((apply_device_path_l m files d pi).2.2 :: (apply_device_path_n m files (apply_device_path_l m files d pi).1 pi k).2) = _
      rw [hflag, hrec.1, List.replicate_succ]
    · show (apply_device_path_n m files (apply_device_path_l m files d pi).1 pi k).1.use_count = _
      rw [hrec.2, hstep.1]
      push_cast
      ring

/-- Iterating the "off" path while more than `n` references remain never
runs the path body and removes one reference per application. -/
theorem apply_off_iter (m : Mixer) (files : DataFiles) (pi : Nat) :
    ∀ (n : Nat) (d : Device),
      ((d.paths[pi]?).map Path.id) = some e_path_id_off →
      (n : Int) + 1 ≤ d.use_count →
      (apply_device_path_n m files d pi n).2 = List.replicate n false ∧
      (apply_device_path_n m files d pi n).1.use_count = d.use_count - n := by
  intro n
  induction n with
  | zero => intro d _ _; exact ⟨rfl, by simp [apply_device_path_n]⟩
  | succ k ih =>
    intro d hid hcnt
    obtain ⟨p, hp, hpid⟩ := Option.map_eq_some'.1 hid
    have hstep := apply_device_path_l_off m files d pi p hp hpid
    have hflag : (apply_device_path_l m files d pi).2.2 = false := by
      rcases hb : (apply_device_path_l m files d pi).2.2 with _ | _
      · rfl
      · exfalso; have := hstep.2.1 hb; push_cast at hcnt; omega
    have hrec := ih (apply_device_path_l m files d pi).1
      (by rw [apply_device_path_l_path_id]; exact hid)
      (by rw [hstep.1]; push_cast at hcnt ⊢; omega)
    refine ⟨?_, ?_⟩
    · show ((apply_device_path_l m files d pi).2.2 :: (apply_device_path_n m files (apply_device_path_l m files d pi).1 pi k).2) = _
      rw [hflag, hrec.1, List.replicate_succ]
    · show (apply_device_path_n m files (apply_device_path_l m files d pi).1 pi k).1.use_count = _
      rw [hrec.2, hstep.1]
      push_cast
      ring

/-- When every control of `good` binds and `bad` fails to bind, applying
`good ++ bad :: rest` writes exactly what applying `good` alone writes:
the failing control and everything after it in the same path are skipped. -/
theorem apply_ctls_l_break (m : Mixer) (files : DataFiles) (bad : Ctl) (rest : List Ctl)
    (hbad : ∀ c1, ctl_open m files bad ≠ .ok c1) :
    ∀ (good : List Ctl), (∀ c ∈ good, ∃ c1, ctl_open m files c = .ok c1) →
      (apply_ctls_l m files (good ++ bad :: rest)).2 = (apply_ctls_l m files good).2 := by
  intro good
  induction good with
  | nil =>
    intro _
    show (apply_ctls_l m files (bad :: rest)).2 = _
    unfold apply_ctls_l
    cases hb : ctl_open m files bad with
    | error e => rfl
    | ok c1 => exact absurd hb (hbad c1)
  | cons c g ih =>
    intro hgood
    obtain ⟨c1, hc1⟩ := hgood c (by simp)
    have ih1 := ih (fun x hx => hgood x (by simp [hx]))
    show (apply_ctls_l m files (c :: (g ++ bad :: rest))).2 = _
    unfold apply_ctls_l
    rw [hc1]
    simpa using ih1

theorem apply_case_search_found (m : Mixer) (files : DataFiles) (cname : String)
    (target : SCase) (csuf : List SCase) (hname : target.name = cname) :
    ∀ (cpre : List SCase), (∀ c ∈ cpre, c.name ≠ cname) →
      ∃ cs1, apply_case_search m files cname (cpre ++ target :: csuf) =
        some (cs1, (apply_ctls_l m files target.ctls).2) := by
  intro cpre
  induction cpre with
  | nil =>
    intro _
    refine ⟨{ target with ctls := (apply_ctls_l m files target.ctls).1 } :: csuf, ?_⟩
    show apply_case_search m files cname (target :: csuf) = _
    unfold apply_case_search
    rw [if_pos hname]
  | cons c cp ih =>
    intro hall
    obtain ⟨cs1, hcs1⟩ := ih (fun x hx => hall x (by simp [hx]))
    refine ⟨c :: cs1, ?_⟩
    show apply_case_search m files cname (c :: (cp ++ target :: csuf)) = _
    unfold apply_case_search
    rw [if_neg (hall c (by simp)), hcs1]

theorem apply_use_case_search_found (m : Mixer) (files : DataFiles)
    (setting cname : String) (targetUc : UseCase) (suf : List UseCase)
    (hucname : targetUc.name = setting)
    (cpre csuf : List SCase) (target : SCase)
    (hcases : targetUc.cases = cpre ++ target :: csuf)
    (hname : target.name = cname) (hcpre : ∀ c ∈ cpre, c.name ≠ cname) :
    ∀ (pre : List UseCase), (∀ uc ∈ pre, uc.name ≠ setting) →
      (apply_use_case_search m files setting cname (pre ++ targetUc :: suf)).2.1 = 0 ∧
      (apply_use_case_search m files setting cname (pre ++ targetUc :: suf)).2.2 =
        (apply_ctls_l m files target.ctls).2 := by
  intro pre
  induction pre with
  | nil =>
    intro _
    obtain ⟨cs1, hcs1⟩ := apply_case_search_found m files cname target csuf hname cpre hcpre
    simp only [List.nil_append]
    unfold apply_use_case_search
    rw [if_pos hucname, hcases, hcs1]
    exact ⟨rfl, rfl⟩
  | cons uc ucs ih =>
    intro hall
    have ih1 := ih (fun x hx => hall x (by simp [hx]))
    have hne : uc.name ≠ setting := hall uc (by simp)
    show (apply_use_case_search m files setting cname (uc :: (ucs ++ targetUc :: suf))).2.1 = 0 ∧ _
    unfold apply_use_case_search
    simpa [hne] using ih1

theorem anon_find_go_none (streams : List Stream) (t : StreamType)
    (h : ∀ (i : Nat) (s : Stream), streams[i]? = some s → s.stype = t →
      ¬ s.ref_count < s.max_ref_count) :
    ∀ n, anon_find_go streams t n = none := by
  intro n
  induction n with
  | zero => rfl
  | succ i ih =>
    unfold anon_find_go
    cases hs : streams[i]? with
    | none => exact ih
    | some s =>
      simp only []
      rw [if_neg (fun hc => h i s hs hc.1 hc.2)]
      exact ih

theorem anon_find_go_unique (streams : List Stream) (t : StreamType) (k : Nat)
    (sk : Stream) (hk : streams[k]? = some sk) (ht : sk.stype = t)
    (hc : sk.ref_count < sk.max_ref_count)
    (hothers : ∀ (j : Nat) (s' : Stream), j ≠ k → streams[j]? = some s' →
      s'.stype = t → ¬ s'.ref_count < s'.max_ref_count) :
    ∀ n, k < n → anon_find_go streams t n = some k := by
  intro n
  induction n with
  | zero => intro hkn; omega
  | succ i ih =>
    intro hkn
    unfold anon_find_go
    by_cases hik : i = k
    · subst hik
      rw [hk]
      simp only []
      rw [if_pos ⟨ht, hc⟩]
    · have hki : k < i := by omega
      cases hs : streams[i]? with
      | none => exact ih hki
      | some s' =>
        simp only []
        rw [if_neg (fun hcj => hothers i s' hik hs hcj.1 hcj.2)]
        exact ih hki

/-- `apply_route` never changes a stream's reference count. -/
theorem apply_route_ref_count (files : DataFiles) (cm : ConfigMgr) (k : Nat)
    (D : Nat) :
    (((apply_route files cm (.anon k) D).1.anon_streams[k]?).map Stream.ref_count) =
      ((cm.anon_streams[k]?).map Stream.ref_count) := by
  unfold apply_route
  cases hs : getStreamAt cm (.anon k) with
  | none => rfl
  | some s =>
    simp only []
    cases hm : route_mask s.stype D with
    | none => rfl
    | some devs =>
      have hs1 : cm.anon_streams[k]? = some s := hs
      have hlt : k < cm.anon_streams.length := (List.getElem?_eq_some_iff.1 hs1).1
      show (((cm.anon_streams.set k { s with current_devices := devs })[k]?).map
        Stream.ref_count) = ((cm.anon_streams[k]?).map Stream.ref_count)
      rw [List.getElem?_set, if_pos rfl, if_pos hlt, hs1]
      rfl

/-- Opening a below-cap stream increments exactly its reference count. -/
theorem open_stream_l_at (files : DataFiles) (cm : ConfigMgr) (k : Nat) (s : Stream)
    (h : getStreamAt cm (.anon k) = some s) (hlt : s.ref_count < s.max_ref_count) :
    ((open_stream_l files cm (.anon k)).1.anon_streams[k]?) =
      some { s with ref_count := s.ref_count + 1 } := by
  have h1 : cm.anon_streams[k]? = some s := h
  have hklen : k < cm.anon_streams.length := (List.getElem?_eq_some_iff.1 h1).1
  unfold open_stream_l
  rw [h]
  simp only []
  rw [if_pos hlt]
  split
  · show (((cm.anon_streams.set k { s with ref_count := s.ref_count + 1 })[k]?)) = _
    rw [List.getElem?_set, if_pos rfl, if_pos hklen]
  · show (((cm.anon_streams.set k { s with ref_count := s.ref_count + 1 })[k]?)) = _
    rw [List.getElem?_set, if_pos rfl, if_pos hklen]

/-- `release_stream` on an anonymous stream: only that stream's entry
changes, to one with the same type and cap and one fewer reference. -/
theorem release_stream_streams (files : DataFiles) (cm : ConfigMgr) (k : Nat)
    (s : Stream) (h : getStreamAt cm (.anon k) = some s) :
    ∃ s1, (release_stream files cm (.anon k)).1.anon_streams = cm.anon_streams.set k s1 ∧
      s1.stype = s.stype ∧ s1.ref_count = s.ref_count - 1 ∧
      s1.max_ref_count = s.max_ref_count := by
  unfold release_stream
  rw [h]
  simp only []
  split
  · exact ⟨{ s with ref_count := s.ref_count - 1, current_devices := 0 },
      rfl, rfl, rfl, rfl⟩
  · exact ⟨{ s with ref_count := s.ref_count - 1 }, rfl, rfl, rfl, rfl⟩

theorem land_zero_right (a : Nat) : a &&& 0 = 0 := by
  apply Nat.eq_of_testBit_eq
  intro i
  simp [Nat.testBit_land]

theorem land_not32_self {a : Nat} (h : a < 2 ^ 32) : a &&& not32 a = 0 := by
  apply Nat.eq_of_testBit_eq
  intro i
  simp only [Nat.testBit_land, not32, U32_MASK, Nat.testBit_xor, Nat.zero_testBit]
  cases hb : a.testBit i with
  | false => simp
  | true =>
    have hi : i < 32 := by
      by_contra h32
      have hlt : a < 2 ^ i :=
        lt_of_lt_of_le h (Nat.pow_le_pow_right (by norm_num) (by omega))
      rw [Nat.testBit_lt_two_pow hlt] at hb
      exact Bool.noConfusion hb
    have hm : (0xFFFFFFFF : Nat).testBit i = true := by
      rw [show (0xFFFFFFFF : Nat) = 2 ^ 32 - 1 by norm_num,
        Nat.testBit_two_pow_sub_one]
      simpa using hi
    simp [hm, hb]

theorem route_mask_lt {t : StreamType} {D m : Nat} (hD : D < 2 ^ 32)
    (h : route_mask t D = some m) : m < 2 ^ 32 := by
  unfold route_mask at h
  split_ifs at h <;>
    first
      | exact Option.noConfusion h
      | (rw [← Option.some.inj h]
         exact Nat.or_lt_two_pow
           (lt_of_le_of_lt Nat.and_le_right
             (show AUDIO_DEVICE_IN_ALL < 2 ^ 32 by norm_num [AUDIO_DEVICE_IN_ALL]))
           (show AUDIO_DEVICE_BIT_IN < 2 ^ 32 by norm_num [AUDIO_DEVICE_BIT_IN]))
      | (rw [← Option.some.inj h]
         exact lt_of_le_of_lt Nat.and_le_right
           (show AUDIO_DEVICE_OUT_ALL < 2 ^ 32 by norm_num [AUDIO_DEVICE_OUT_ALL]))
      | (rw [← Option.some.inj h]; exact hD)

/-- A mask with no bits outside `AUDIO_DEVICE_BIT_IN` drives no device at
all: the walk strips the direction bit and stops on the empty mask. -/
theorem apply_paths_to_devices_l_nodevs (m : Mixer) (files : DataFiles)
    (l : List Device) (x : Nat) (a b : Int)
    (hx : x &&& not32 AUDIO_DEVICE_BIT_IN = 0) :
    apply_paths_to_devices_l m files l x a b = (l, []) := by
  unfold apply_paths_to_devices_l
  rw [hx]
  cases l with
  | nil => rfl
  | cons d rest =>
    unfold apply_devices_walk
    rw [if_pos rfl]

theorem getStreamAt_setStreamAt (cm : ConfigMgr) (loc : StreamLoc) (s0 s1 : Stream)
    (h : getStreamAt cm loc = some s0) :
    getStreamAt (setStreamAt cm loc s1) loc = some s1 := by
  cases loc with
  | anon i =>
    have h1 : cm.anon_streams[i]? = some s0 := h
    have hlt : i < cm.anon_streams.length := (List.getElem?_eq_some_iff.1 h1).1
    show (cm.anon_streams.set i s1)[i]? = some s1
    rw [List.getElem?_set, if_pos rfl, if_pos hlt]
  | named i =>
    have h1 : cm.named_streams[i]? = some s0 := h
    have hlt : i < cm.named_streams.length := (List.getElem?_eq_some_iff.1 h1).1
    show (cm.named_streams.set i s1)[i]? = some s1
    rw [List.getElem?_set, if_pos rfl, if_pos hlt]

theorem setStreamAt_self (cm : ConfigMgr) (loc : StreamLoc) (s : Stream)
    (h : getStreamAt cm loc = some s) : setStreamAt cm loc s = cm := by
  cases loc with
  | anon i =>
    show { cm with anon_streams := cm.anon_streams.set i s } = cm
    rw [list_set_of_getElem? _ _ _ h]
  | named i =>
    show { cm with named_streams := cm.named_streams.set i s } = cm
    rw [list_set_of_getElem? _ _ _ h]

/-- A second `apply_route` with a mask the stream already has is a complete
no-op: no writes and no state change. -/
theorem apply_route_noop (files : DataFiles) (cm : ConfigMgr) (loc : StreamLoc)
    (D : Nat) (s2 : Stream) (devs : Nat)
    (h : getStreamAt cm loc = some s2)
    (hm : route_mask s2.stype D = some devs)
    (hc : s2.current_devices = devs)
    (hdevs : devs < 2 ^ 32) :
    apply_route files cm loc D = (cm, []) := by
  have hbitz : (devs &&& AUDIO_DEVICE_BIT_IN) &&& not32 AUDIO_DEVICE_BIT_IN = 0 := by
    rw [Nat.land_assoc,
      (by decide : AUDIO_DEVICE_BIT_IN &&& not32 AUDIO_DEVICE_BIT_IN = 0),
      land_zero_right]
  have he : (devs &&& not32 devs) ||| (devs &&& AUDIO_DEVICE_BIT_IN)
      = devs &&& AUDIO_DEVICE_BIT_IN := by
    rw [land_not32_self hdevs, Nat.zero_or]
  have hd : ((not32 devs) &&& devs) ||| (devs &&& AUDIO_DEVICE_BIT_IN)
      = devs &&& AUDIO_DEVICE_BIT_IN := by
    rw [Nat.land_comm, land_not32_self hdevs, Nat.zero_or]
  unfold apply_route
  rw [h]
  simp only []
  rw [hm]
  simp only [hc, he, hd,
    apply_paths_to_devices_l_nodevs _ _ _ _ _ _ hbitz]
  rw [show ({ s2 with current_devices := devs } : Stream) = s2 by rw [← hc]]
  rw [show ({ cm with devices := cm.devices } : ConfigMgr) = cm from rfl]
  rw [setStreamAt_self cm loc s2 h]
  simp

/-! ## Claim theorems -/

/-- C1. For a device whose use count starts at 0: across N applications of
its "on" path followed by N−1 applications of its "off" path (N ≥ 1), the
"on" path's controls run exactly once (on the 0→1 transition), the "off"
path's controls never run during the first N−1 "off" applications, a
further Nth "off" application runs them and brings the use count to 0,
and any custom path (id neither "on" nor "off") runs its controls on every
application without touching the use count. -/
theorem device_on_off_refcount (m : Mixer) (files : DataFiles) (d : Device)
    (iOn iOff N : Nat) (hN : 1 ≤ N) (h0 : d.use_count = 0)
    (hOn : ((d.paths[iOn]?).map Path.id) = some e_path_id_on)
    (hOff : ((d.paths[iOff]?).map Path.id) = some e_path_id_off) :
    (apply_device_path_n m files d iOn N).2 = true :: List.replicate (N - 1) false ∧
    (apply_device_path_n m files (apply_device_path_n m files d iOn N).1 iOff (N - 1)).2
      = List.replicate (N - 1) false ∧
    (apply_device_path_l m files
      (apply_device_path_n m files (apply_device_path_n m files d iOn N).1 iOff (N - 1)).1
      iOff).2.2 = true ∧
    (apply_device_path_l m files
      (apply_device_path_n m files (apply_device_path_n m files d iOn N).1 iOff (N - 1)).1
      iOff).1.use_count = 0 ∧
    (∀ (d1 : Device) (pi : Nat) (p : Path), d1.paths[pi]? = some p →
      p.id ≠ e_path_id_on → p.id ≠ e_path_id_off →
      (apply_device_path_l m files d1 pi).2.2 = true ∧
      (apply_device_path_l m files d1 pi).1.use_count = d1.use_count) := by
  obtain ⟨k, rfl⟩ : ∃ k, N = k + 1 := ⟨N - 1, by omega⟩
  simp only [Nat.add_sub_cancel]
  obtain ⟨pOn, hpOn, hpOnId⟩ := Option.map_eq_some'.1 hOn
  -- first "on" application runs the path and moves the count to 1
  have hstep := apply_device_path_l_on m files d iOn pOn hpOn hpOnId
  have hflag1 : (apply_device_path_l m files d iOn).2.2 = true := hstep.2.2 (by omega)
  have hcnt1 : (apply_device_path_l m files d iOn).1.use_count = 1 := by
    rw [hstep.1, h0]; norm_num
  -- the remaining k "on" applications are silent
  have hOn1 : (((apply_device_path_l m files d iOn).1.paths[iOn]?).map Path.id)
      = some e_path_id_on := by rw [apply_device_path_l_path_id]; exact hOn
  have hrest := apply_on_iter m files iOn k (apply_device_path_l m files d iOn).1
    hOn1 (by rw [hcnt1])
  have hOnPhaseFlags :
      (apply_device_path_n m files d iOn (k + 1)).2 = true :: List.replicate k false := by
    show ((apply_device_path_l m files d iOn).2.2 ::
      (apply_device_path_n m files (apply_device_path_l m files d iOn).1 iOn k).2) = _
    rw [hflag1, hrest.1]
  have hOnPhaseCnt :
      (apply_device_path_n m files d iOn (k + 1)).1.use_count = (k : Int) + 1 := by
    show (apply_device_path_n m files (apply_device_path_l m files d iOn).1 iOn k).1.use_count = _
    rw [hrest.2, hcnt1]; ring
  have hOffId : (((apply_device_path_n m files d iOn (k + 1)).1.paths[iOff]?).map Path.id)
      = some e_path_id_off := by
    rw [apply_device_path_n_path_id]; exact hOff
  -- k "off" applications stay silent, leaving one reference
  have hoffPhase := apply_off_iter m files iOff k
    (apply_device_path_n m files d iOn (k + 1)).1 hOffId (by rw [hOnPhaseCnt])
  have hOffCnt :
      (apply_device_path_n m files (apply_device_path_n m files d iOn (k + 1)).1 iOff k).1.use_count = 1 := by
    rw [hoffPhase.2, hOnPhaseCnt]; ring
  have hOffId2 : (((apply_device_path_n m files (apply_device_path_n m files d iOn (k + 1)).1 iOff k).1.paths[iOff]?).map Path.id)
      = some e_path_id_off := by
    rw [apply_device_path_n_path_id]; exact hOffId
  obtain ⟨pOff, hpOff, hpOffId⟩ := Option.map_eq_some'.1 hOffId2
  have hfinal := apply_device_path_l_off m files _ iOff pOff hpOff hpOffId
  refine ⟨hOnPhaseFlags, hoffPhase.1, ?_, ?_, ?_⟩
  · exact hfinal.2.2 (by rw [hOffCnt]; norm_num)
  · rw [hfinal.1, hOffCnt]; norm_num
  · intro d1 pi p hp hon hoff
    exact apply_device_path_l_custom m files d1 pi p hp hon hoff

/-- Witness for C1 at N = 2 on a device with "off", "on" and a custom path. -/
theorem device_on_off_refcount_witness :
    (1 ≤ 2 ∧
     ({ dtype := 2, use_count := 0,
        paths := [{ id := e_path_id_off, ctls := [] },
                  { id := e_path_id_on, ctls := [] },
                  { id := 2, ctls := [] }] } : Device).use_count = 0) ∧
    ((apply_device_path_n { ctls := [] } []
      { dtype := 2, use_count := 0,
        paths := [{ id := e_path_id_off, ctls := [] },
                  { id := e_path_id_on, ctls := [] },
                  { id := 2, ctls := [] }] } 1 2).2 = true :: List.replicate 1 false) := by
  refine ⟨⟨by norm_num, rfl⟩, ?_⟩
  exact (device_on_off_refcount { ctls := [] } []
    { dtype := 2, use_count := 0,
      paths := [{ id := e_path_id_off, ctls := [] },
                { id := e_path_id_on, ctls := [] },
                { id := 2, ctls := [] }] } 1 0 2
    (by norm_num) rfl (by decide) (by decide)).1

/-- C2. Calling `apply_route` a second time with the identical device
bitmask D performs zero mixer-control writes and leaves the whole manager
state untouched; the first call sets the stream's `current_devices` to the
direction-masked D (so to D itself exactly when D is a valid bitmask for
the stream's direction, and unchanged when the route is rejected for a
direction mismatch). -/
theorem apply_route_second_call_noop (files : DataFiles) (cm : ConfigMgr)
    (loc : StreamLoc) (D : Nat) (hD : D < 2 ^ 32) :
    (apply_route files (apply_route files cm loc D).1 loc D).2 = [] ∧
    (apply_route files (apply_route files cm loc D).1 loc D).1 =
      (apply_route files cm loc D).1 ∧
    (∀ s, getStreamAt cm loc = some s →
      getStreamAt (apply_route files cm loc D).1 loc =
        some { s with current_devices := (route_mask s.stype D).getD s.current_devices }) := by
  cases h0 : getStreamAt cm loc with
  | none =>
    have hfix : apply_route files cm loc D = (cm, []) := by
      unfold apply_route; rw [h0]
    refine ⟨?_, ?_, ?_⟩
    · rw [hfix]; show (apply_route files cm loc D).2 = []; rw [hfix]
    · rw [hfix]; show (apply_route files cm loc D).1 = cm; rw [hfix]
    · intro s hs; exact Option.noConfusion hs
  | some s =>
    cases hm : route_mask s.stype D with
    | none =>
      have hfix : apply_route files cm loc D = (cm, []) := by
        unfold apply_route; rw [h0]; simp only []; rw [hm]
      refine ⟨?_, ?_, ?_⟩
      · rw [hfix]; show (apply_route files cm loc D).2 = []; rw [hfix]
      · rw [hfix]; show (apply_route files cm loc D).1 = cm; rw [hfix]
      · intro s0 hs0
        obtain rfl : s = s0 := Option.some.inj hs0
        rw [hfix]
        show getStreamAt cm loc =
          some { s with current_devices := (route_mask s.stype D).getD s.current_devices }
        rw [hm]
        show getStreamAt cm loc = some { s with current_devices := s.current_devices }
        rw [show ({ s with current_devices := s.current_devices } : Stream) = s from rfl]
        exact h0
    | some devs =>
      have hdevs : devs < 2 ^ 32 := route_mask_lt hD hm
      have hget1 : getStreamAt (apply_route files cm loc D).1 loc =
          some { s with current_devices := devs } := by
        unfold apply_route
        rw [h0]
        simp only []
        rw [hm]
        simp only []
        exact getStreamAt_setStreamAt _ loc s _ h0
      have hnoop := apply_route_noop files (apply_route files cm loc D).1 loc D
        { s with current_devices := devs } devs hget1 hm rfl hdevs
      refine ⟨by rw [hnoop], by rw [hnoop], ?_⟩
      intro s0 hs0
      obtain rfl : s = s0 := Option.some.inj hs0
      rw [hget1, hm]
      rfl

/-- Witness for C2 on a concrete manager and a valid output mask: the
second call writes nothing and keeps the state, and `current_devices`
becomes exactly D (= 0x2, a speaker route). -/
theorem apply_route_second_call_noop_witness :
    ((apply_route [] (apply_route [] outOnlyMgr (.anon 0) 0x2).1 (.anon 0) 0x2).2 = [] ∧
     (apply_route [] (apply_route [] outOnlyMgr (.anon 0) 0x2).1 (.anon 0) 0x2).1 =
       (apply_route [] outOnlyMgr (.anon 0) 0x2).1) ∧
    getStreamAt (apply_route [] outOnlyMgr (.anon 0) 0x2).1 (.anon 0) =
      some { capStream with ref_count := 0, current_devices := 0x2 } := by
  have h := apply_route_second_call_noop [] outOnlyMgr (.anon 0) 0x2 (by norm_num)
  refine ⟨⟨h.1, h.2.1⟩, ?_⟩
  have h3 := h.2.2 { capStream with ref_count := 0 } (by decide)
  rw [h3]
  decide

/-- Counterexample for C2 as stated: with D = 0x2000000 (a bit outside
`AUDIO_DEVICE_OUT_ALL`) on an output stream, the second call still writes
nothing but `current_devices` ends up 0 (the masked value), not D. -/
theorem apply_route_current_devices_cex :
    ¬ ((apply_route [] (apply_route [] outOnlyMgr (.anon 0) 0x2000000).1
          (.anon 0) 0x2000000).2 = [] ∧
       ((getStreamAt (apply_route [] (apply_route [] outOnlyMgr (.anon 0) 0x2000000).1
          (.anon 0) 0x2000000).1 (.anon 0)).map Stream.current_devices) =
         some 0x2000000) := by
  decide

/-- C3. Evaluation of the use-count underflow: through the public
operations alone (`get_stream` routed to the three-bit "sco" device mask,
then `apply_route` to one of its bits, then `apply_route` away), the sco
device's use_count runs 1, 0, −1 — the "off" path is reference-counted per
overlapping-bit transition, not per device acquisition, so a partial
disable of a multi-bit device drives the count negative.  (The final two
steps check the claim's release half, which does hold: releasing a stream
whose ref_count is already 0 changes no device use_count.) -/
theorem device_use_count_underflow :
    (get_stream [] scoMgr 0x70 0 0).2.1 = some 0 ∧
    scoStep1.devices.map Device.use_count = [1] ∧
    scoStep2.devices.map Device.use_count = [0] ∧
    scoStep3.devices.map Device.use_count = [-1] ∧
    ((getStreamAt scoStep4 (.anon 0)).map Stream.ref_count = some 0 ∧
      scoStep5.devices = scoStep4.devices ∧
      (getStreamAt scoStep5 (.anon 0)).map Stream.ref_count = some (-1)) := by
  refine ⟨by decide, by decide, by decide, by decide, by decide, by decide, by decide⟩

/-- C4. When a control of the matched use-case/case cannot be resolved
against the mixer at write time, that control and all remaining controls of
that one path are skipped (the trace is exactly the writes of the controls
before it), and `apply_use_case` still returns 0 because the named setting
and case were found. -/
theorem use_case_skips_unbindable_controls (m : Mixer) (files : DataFiles)
    (s : Stream) (setting cname : String) (pre suf : List UseCase)
    (cpre csuf : List SCase) (good rest : List Ctl) (bad : Ctl)
    (hs : s.usecases = pre ++
      ({ name := setting,
         cases := cpre ++ ({ name := cname, ctls := good ++ bad :: rest } : SCase) :: csuf }
        : UseCase) :: suf)
    (hpre : ∀ uc ∈ pre, uc.name ≠ setting)
    (hcpre : ∀ c ∈ cpre, c.name ≠ cname)
    (hgood : ∀ c ∈ good, ∃ c1, ctl_open m files c = .ok c1)
    (hbad : ∀ c1, ctl_open m files bad ≠ .ok c1) :
    (apply_use_case m files s setting cname).2.1 = 0 ∧
    (apply_use_case m files s setting cname).2.2 = (apply_ctls_l m files good).2 := by
  have hfound := apply_use_case_search_found m files setting cname
    { name := setting,
      cases := cpre ++ ({ name := cname, ctls := good ++ bad :: rest } : SCase) :: csuf }
    suf rfl cpre csuf { name := cname, ctls := good ++ bad :: rest } rfl rfl hcpre pre hpre
  have hbreak := apply_ctls_l_break m files bad rest hbad good hgood
  unfold apply_use_case
  rw [hs]
  exact ⟨hfound.1, by rw [hfound.2]; exact hbreak⟩

/-- Witness for C4: a one-usecase stream whose case holds one bindable
control followed by an unbindable one; the call returns 0 and writes only
the first control's value. -/
theorem use_case_skips_unbindable_controls_witness :
    (apply_use_case ucMixer [] ucStream "setting" "case").2.1 = 0 ∧
    (apply_use_case ucMixer [] ucStream "setting" "case").2.2 =
      [WriteEvent.setValue 0 0 5] := by
  have h := use_case_skips_unbindable_controls ucMixer [] ucStream
    "setting" "case" [] [] [] [] [ucGoodCtl] [] ucBadCtl
    rfl (by simp) (by simp)
    (by intro c hc
        simp only [List.mem_singleton] at hc
        subst hc
        exact ⟨{ ucGoodCtl with value := .int 5, ctype := .int, ref := some 0 }, by rfl⟩)
    (by intro c1 hc1
        have hno : (ctl_open ucMixer [] ucBadCtl).isOk = false := by decide
        rw [hc1] at hno
        simp [Except.isOk, Except.toBool] at hno)
  refine ⟨h.1, ?_⟩
  rw [h.2]
  decide

/-- C5. Once every anonymous stream matching the wanted type is at its
instance cap, `get_stream` returns no stream (and changes nothing); a named
stream at cap makes `get_named_stream` return none; and after one
`release_stream` on a matching stream that held exactly its cap, the next
`get_stream` succeeds, returns that stream and increments its reference
count back to the cap. -/
theorem stream_instance_cap :
    (∀ (files : DataFiles) (cm : ConfigMgr) (devices flags format : Nat),
      (∀ (i : Nat) (s : Stream), cm.anon_streams[i]? = some s →
        s.stype = wanted_stream_type devices format →
        s.max_ref_count ≤ s.ref_count) →
      get_stream files cm devices flags format = (cm, none, [])) ∧
    (∀ (files : DataFiles) (cm : ConfigMgr) (name : String) (i : Nat) (s : Stream),
      find_named_stream cm name = some i → cm.named_streams[i]? = some s →
      s.max_ref_count ≤ s.ref_count →
      (get_named_stream files cm name).2.1 = none) ∧
    (∀ (files : DataFiles) (cm : ConfigMgr) (devices flags format k : Nat) (s : Stream),
      cm.anon_streams[k]? = some s →
      s.stype = wanted_stream_type devices format →
      s.ref_count = s.max_ref_count →
      (∀ (j : Nat) (s' : Stream), cm.anon_streams[j]? = some s' →
        s'.stype = wanted_stream_type devices format →
        s'.max_ref_count ≤ s'.ref_count) →
      ((get_stream files ((release_stream files cm (.anon k)).1)
          devices flags format).2.1 = some k ∧
        (((get_stream files ((release_stream files cm (.anon k)).1)
          devices flags format).1.anon_streams[k]?).map Stream.ref_count) =
          some s.max_ref_count)) := by
  refine ⟨?_, ?_, ?_⟩
  · intro files cm devices flags format hall
    have hfind : anon_find cm.anon_streams (wanted_stream_type devices format) = none :=
      anon_find_go_none _ _ (fun i s hi hti => by have := hall i s hi hti; omega) _
    simp only [get_stream, hfind]
  · intro files cm name i s hfind hsi hcap
    have hopen : (open_stream_l files cm (.named i)).2.2 = false := by
      have h1 : getStreamAt cm (.named i) = some s := hsi
      unfold open_stream_l
      rw [h1]
      simp only []
      rw [if_neg (by omega)]
    unfold get_named_stream
    rw [hfind]
    simp [hopen]
  · intro files cm devices flags format k s hk ht heq hall
    obtain ⟨s1, hset, hst, hrc, hmax⟩ := release_stream_streams files cm k s hk
    have hklen : k < cm.anon_streams.length := (List.getElem?_eq_some_iff.1 hk).1
    have hRk : (release_stream files cm (.anon k)).1.anon_streams[k]? = some s1 := by
      rw [hset, List.getElem?_set, if_pos rfl, if_pos hklen]
    have hRlen : k < (release_stream files cm (.anon k)).1.anon_streams.length := by
      rw [hset, List.length_set]; exact hklen
    have hs1cap : s1.ref_count < s1.max_ref_count := by
      rw [hrc, hmax]; omega
    have hfind : anon_find (release_stream files cm (.anon k)).1.anon_streams
        (wanted_stream_type devices format) = some k := by
      refine anon_find_go_unique _ _ k s1 hRk (hst.trans ht) hs1cap ?_ _ ?_
      · intro j s' hjk hj hts'
        rw [hset, List.getElem?_set, if_neg (fun he => hjk he.symm)] at hj
        have := hall j s' hj hts'
        omega
      · rw [hset, List.length_set]; exact hklen
    have hopen := open_stream_l_at files (release_stream files cm (.anon k)).1 k s1
      hRk hs1cap
    constructor
    · simp only [get_stream, hfind]
    · simp only [get_stream, hfind]
      rw [apply_route_ref_count, hopen]
      show some (s1.ref_count + 1) = some s.max_ref_count
      congr 1
      omega

/-- Witness for C5: one matching out-pcm stream at its cap of 1: the first
acquisition fails, and after a release the next acquisition returns it. -/
theorem stream_instance_cap_witness :
    (get_stream [] capMgr 2 0 0 = (capMgr, none, [])) ∧
    ((get_stream [] ((release_stream [] capMgr (.anon 0)).1) 2 0 0).2.1 = some 0) := by
  constructor
  · exact stream_instance_cap.1 [] capMgr 2 0 0
      (by intro i s hi hti
          match i, hi with
          | 0, h => simp [capMgr] at h; rw [← h]; decide)
  · exact (stream_instance_cap.2.2 [] capMgr 2 0 0 0 capStream
      (by decide) (by decide) (by decide)
      (by intro j s' hj hts'
          match j, hj with
          | 0, h => simp [capMgr] at h; rw [← h]; decide)).1

/-- C8. For every stream with a bound (mono) volume control of range
[min,max] fitting a C `int`, `set_hw_volume` with percent 0 writes exactly
`min`, with percent 100 exactly `max`, and with any percent strictly
between writes `min + percent*(max-min)/100` in truncating integer
arithmetic (so with min=0, max=100, percent 50 it writes exactly 50,
as the witness checks). -/
theorem set_hw_volume_linear_map (s : Stream) (id : Nat) (p : Int)
    (hl : s.volume_left.ref = some id) (hr : s.volume_right.ref = none)
    (hmn : -(2 ^ 31) ≤ s.volume_left.min) (hmx : s.volume_left.max < 2 ^ 31)
    (hle : s.volume_left.min ≤ s.volume_left.max)
    (h0 : 0 ≤ p) (h100 : p ≤ 100) :
    set_hw_volume s p p =
      (0, [WriteEvent.setValue id s.volume_left.index
        (if p = 0 then s.volume_left.min
         else if p = 100 then s.volume_left.max
         else s.volume_left.min +
           Int.tdiv ((s.volume_left.max - s.volume_left.min) * p) 100)]) := by
  have havg : Int.tdiv (p + p) 2 = p := by
    rw [show p + p = 2 * p by ring]
    exact Int.mul_tdiv_cancel_left p (by norm_num)
  unfold set_hw_volume
  rw [if_neg (by omega), if_neg (by omega)]
  simp only [ctl_ref_valid, hl, hr, Option.isSome_some, Option.isSome_none,
    Bool.not_false, if_true, Bool.false_eq_true, if_false, ite_true, ite_false]
  simp only [set_vol_ctl, hl, havg, ite_self, List.append_nil]
  rw [vol_ctl_value_eq _ _ _ hmn hmx hle h0 h100]

/-- Witness for C8 at min=0, max=100, percent=50: exactly 50 is written. -/
theorem set_hw_volume_linear_map_witness :
    set_hw_volume
      { new_stream_defaults with
        volume_left := { ref := some 3, index := 0, min := 0, max := 100 } } 50 50 =
      (0, [WriteEvent.setValue 3 0 50]) := by
  have h := set_hw_volume_linear_map
    { new_stream_defaults with
      volume_left := { ref := some 3, index := 0, min := 0, max := 100 } }
    3 50 rfl rfl (by norm_num) (by norm_num) (by norm_num) (by norm_num) (by norm_num)
  simpa using h

/-- C9. Either percentage outside [0,100] makes `set_hw_volume` return
`-EINVAL` without performing any mixer write. -/
theorem set_hw_volume_range_check (s : Stream) (l r : Int)
    (h : l < 0 ∨ 100 < l ∨ r < 0 ∨ 100 < r) :
    set_hw_volume s l r = (-EINVAL, []) := by
  unfold set_hw_volume
  by_cases hl : l < 0 ∨ 100 < l
  · rw [if_pos hl]
  · rw [if_neg hl, if_pos (by omega)]

/-- Witness for C9 at percent 101. -/
theorem set_hw_volume_range_check_witness :
    set_hw_volume new_stream_defaults 101 0 = (-EINVAL, []) :=
  set_hw_volume_range_check new_stream_defaults 101 0 (by norm_num)

/-- C10. A stream with neither volume control bound gets `-ENOSYS` (an
error, not success) and no mixer write from `set_hw_volume`; averaging
happens only when the left control alone is bound, so a stream with only a
right control has the right percentage written unaveraged. -/
theorem set_hw_volume_unbound_controls :
    (∀ (s : Stream) (l r : Int), s.volume_left.ref = none → s.volume_right.ref = none →
      0 ≤ l → l ≤ 100 → 0 ≤ r → r ≤ 100 →
      set_hw_volume s l r = (-ENOSYS, [])) ∧
    (∀ (s : Stream) (id : Nat) (l r : Int),
      s.volume_left.ref = none → s.volume_right.ref = some id →
      0 ≤ l → l ≤ 100 → 0 ≤ r → r ≤ 100 →
      set_hw_volume s l r =
        (0, [WriteEvent.setValue id s.volume_right.index
          (vol_ctl_value s.volume_right.min s.volume_right.max r)])) := by
  constructor
  · intro s l r hl hr h0l h100l h0r h100r
    unfold set_hw_volume
    rw [if_neg (by omega), if_neg (by omega)]
    simp [ctl_ref_valid, hl, hr]
  · intro s id l r hl hr h0l h100l h0r h100r
    unfold set_hw_volume
    rw [if_neg (by omega), if_neg (by omega)]
    simp [ctl_ref_valid, hl, hr, set_vol_ctl]

/-- Witness for C10: no control bound gives `-ENOSYS` and no writes;
right-only at 30% writes the unaveraged 30%-scaled value. -/
theorem set_hw_volume_unbound_controls_witness :
    set_hw_volume new_stream_defaults 50 50 = (-ENOSYS, []) ∧
    set_hw_volume
      { new_stream_defaults with
        volume_right := { ref := some 7, index := 1, min := 0, max := 100 } } 80 30 =
      (0, [WriteEvent.setValue 7 1 (vol_ctl_value 0 100 30)]) := by
  constructor
  · exact set_hw_volume_unbound_controls.1 new_stream_defaults 50 50 rfl rfl
      (by norm_num) (by norm_num) (by norm_num) (by norm_num)
  · exact set_hw_volume_unbound_controls.2
      { new_stream_defaults with
        volume_right := { ref := some 7, index := 1, min := 0, max := 100 } }
      7 80 30 rfl rfl (by norm_num) (by norm_num) (by norm_num) (by norm_num)

/-- **C7**: at the close of a `<codec_probe>` block the trimmed first line
of the probe file is looked up among the declared codec cases, and:
(1) no match — the probe is a no-op and parsing continues unaffected;
(2) a match naming the file currently being parsed — the parser is
aborted (fatal self-redirect, the load then fails with `-EINVAL`);
(3) a match naming a different file — parsing is suspended with the
target recorded and the whole accumulated state (in particular the
manager) kept.  The remaining conjuncts propagate this to the load: a
non-`ok` walk status stops the walk of the current file immediately, a
suspension makes `do_parse` succeed, an abort makes it return `-EINVAL`,
and the parse chain restarts against the redirect target carrying the
accumulated state (while a non-zero `do_parse` result fails the load). -/
theorem codec_probe_redirect_trichotomy
    (env : Env) (st : ParseState) (valid : Nat) (f content buf : String)
    (hf : st.probe.file = some f)
    (hc : lookup_str env.textFiles f = some content)
    (hb : fgets40 content = some buf) :
    (st.probe.cases.find? (fun cc => cc.codec_name = trimC buf) = none →
      parse_codec_probe_end env st valid =
        .ok ({ st with probe := { st.probe with new_xml_file := none } }, valid, .ok)) ∧
    (∀ (cc : CodecCase),
      st.probe.cases.find? (fun cc2 => cc2.codec_name = trimC buf) = some cc →
      cc.cfile = st.cur_xml_file →
      parse_codec_probe_end env st valid =
        .ok ({ st with probe := { st.probe with new_xml_file := none } }, valid, .abort)) ∧
    (∀ (cc : CodecCase),
      st.probe.cases.find? (fun cc2 => cc2.codec_name = trimC buf) = some cc →
      cc.cfile ≠ st.cur_xml_file →
      parse_codec_probe_end env st valid =
        .ok ({ st with probe := { st.probe with new_xml_file := some cc.cfile } },
          valid, .suspend)) ∧
    (∀ (x : Xml) (rest : List Xml) (st0 : ParseState) (pvalid pidx : Nat)
       (st1 : ParseState) (v1 : Nat) (s : WalkStatus), s ≠ .ok →
      walkElem env st0 pvalid pidx x = (st1, v1, s) →
      walkList env st0 pvalid pidx (x :: rest) = (st1, v1, s)) ∧
    (∀ (st0 : ParseState) (doc : Xml) (st1 : ParseState) (v1 : Nat),
      walkElem env st0 (BIT e_elem_audiohal) 0 doc = (st1, v1, .suspend) →
      do_parse env st0 doc = .ret 0 st1) ∧
    (∀ (st0 : ParseState) (doc : Xml) (st1 : ParseState) (v1 : Nat),
      walkElem env st0 (BIT e_elem_audiohal) 0 doc = (st1, v1, .abort) →
      do_parse env st0 doc = .ret (-EINVAL) st1) ∧
    (∀ (fuel : Nat) (st0 : ParseState) (file nf : String) (doc : Xml) (st2 : ParseState),
      lookup_str env.xmlFiles file = some doc →
      do_parse env (chain_reset st0 file) doc = .ret 0 st2 →
      st2.probe.new_xml_file = some nf →
      parse_chain env (fuel + 1) st0 file = parse_chain env fuel st2 nf) ∧
    (∀ (fuel : Nat) (st0 : ParseState) (file : String) (doc : Xml) (e : Int)
       (st2 : ParseState),
      lookup_str env.xmlFiles file = some doc →
      do_parse env (chain_reset st0 file) doc = .ret e st2 →
      e ≠ 0 →
      parse_chain env (fuel + 1) st0 file = .err e) := by
  have key : probe_config_file env st =
      (match st.probe.cases.find? (fun cc => cc.codec_name = trimC buf) with
       | none => ProbeResult.proceed { st with probe := { st.probe with new_xml_file := none } }
       | some cc =>
         if cc.cfile = st.cur_xml_file then
           ProbeResult.selfRedirect { st with probe := { st.probe with new_xml_file := none } }
         else
           ProbeResult.redirect
             { st with probe := { st.probe with new_xml_file := some cc.cfile } }) := by
    unfold probe_config_file
    rw [hf]
    simp only []
    rw [hc]
    simp only []
    rw [hb]
  refine ⟨?_, ?_, ?_, ?_, ?_, ?_, ?_, ?_⟩
  · intro hfind
    unfold parse_codec_probe_end
    rw [key, hfind]
  · intro cc hfind heq
    unfold parse_codec_probe_end
    rw [key, hfind]
    simp only []
    rw [if_pos heq]
  · intro cc hfind hne
    unfold parse_codec_probe_end
    rw [key, hfind]
    simp only []
    rw [if_neg hne]
  · intro x rest st0 pvalid pidx st1 v1 s hs hw
    rw [walkList, hw]
    cases s with
    | ok => exact absurd rfl hs
    | err e => rfl
    | suspend => rfl
    | abort => rfl
    | blocked => rfl
  · intro st0 doc st1 v1 hw
    unfold do_parse
    rw [hw]
  · intro st0 doc st1 v1 hw
    unfold do_parse
    rw [hw]
  · intro fuel st0 file nf doc st2 hdoc hdp hnf
    rw [parse_chain, hdoc]
    simp only []
    rw [hdp]
    simp only []
    rw [if_neg (by simp)]
    rw [hnf]
  · intro fuel st0 file doc e st2 hdoc hdp he
    rw [parse_chain, hdoc]
    simp only []
    rw [hdp]
    simp only []
    rw [if_pos he]

/-- Witness for C7: the three probe outcomes on concrete states sharing
the probe file "/etc/probe.txt" (first line " wm8280"), and the chain
restarting against the redirect target with the accumulated state. -/
theorem codec_probe_redirect_trichotomy_witness :
    parse_codec_probe_end cpEnv cpStNone 5 =
      .ok ({ cpStNone with probe := { cpStNone.probe with new_xml_file := none } },
        5, .ok) ∧
    parse_codec_probe_end cpEnv cpStSelf 5 =
      .ok ({ cpStSelf with probe := { cpStSelf.probe with new_xml_file := none } },
        5, .abort) ∧
    parse_codec_probe_end cpEnv cpStRedir 5 =
      .ok ({ cpStRedir with probe :=
        { cpStRedir.probe with new_xml_file := some "/wm8280.xml" } }, 5, .suspend) ∧
    parse_chain cpEnv 2 (initial_parse_state new_config_mgr "/a.xml") "/a.xml" =
      parse_chain cpEnv 1 cpSt2 "/wm8280.xml" := by
  have h1 := codec_probe_redirect_trichotomy cpEnv cpStNone 5
    "/etc/probe.txt" " wm8280\nsecond line" " wm8280\n" rfl rfl rfl
  have h2 := codec_probe_redirect_trichotomy cpEnv cpStSelf 5
    "/etc/probe.txt" " wm8280\nsecond line" " wm8280\n" rfl rfl rfl
  have h3 := codec_probe_redirect_trichotomy cpEnv cpStRedir 5
    "/etc/probe.txt" " wm8280\nsecond line" " wm8280\n" rfl rfl rfl
  refine ⟨h1.1 (by decide), ?_, ?_, ?_⟩
  · exact h2.2.1 { codec_name := "wm8280", cfile := "/a.xml" } (by decide) rfl
  · exact h3.2.2.1 { codec_name := "wm8280", cfile := "/wm8280.xml" } (by decide) (by decide)
  · exact h3.2.2.2.2.2.2.1 1 (initial_parse_state new_config_mgr "/a.xml")
      "/a.xml" "/wm8280.xml" cpDoc cpSt2 rfl (by rfl) (by rfl)

theorem find_elem_go_some (valid : Nat) (n : String) :
    ∀ (c i j : Nat), find_elem_go valid n c i = some j →
      elem_name j = n ∧ valid.testBit j = true ∧ i ≤ j ∧ j < i + c := by
  intro c
  induction c with
  | zero => intro i j h; simp [find_elem_go] at h
  | succ c ih =>
    intro i j h
    rw [find_elem_go] at h
    split at h
    · rename_i hcond
      cases h
      exact ⟨hcond.2, by simp [hcond.1], Nat.le_refl _, by omega⟩
    · obtain ⟨h1, h2, h3, h4⟩ := ih (i + 1) j h
      exact ⟨h1, h2, by omega, by omega⟩

theorem find_elem_some (valid : Nat) (n : String) (j : Nat)
    (h : find_elem valid n = some j) :
    elem_name j = n ∧ valid.testBit j = true ∧ j < e_elem_count := by
  obtain ⟨h1, h2, _, h4⟩ := find_elem_go_some valid n e_elem_count 0 j h
  exact ⟨h1, h2, by simpa using h4⟩

theorem find_elem_zero (n : String) : find_elem 0 n = none := by
  have go : ∀ c i, find_elem_go 0 n c i = none := by
    intro c
    induction c with
    | zero => intro i; rfl
    | succ c ih => intro i; rw [find_elem_go]; simp [Nat.zero_testBit, ih]
  exact go e_elem_count 0

/-- Elements whose `valid_subelem` mask is `0` admit no children: a
successful walk of such a child list means it was empty. -/
theorem walkList_zero_of_ok (env : Env) (l : List Xml) (st : ParseState) (pidx : Nat)
    (h : (walkList env st 0 pidx l).2.2 = .ok) :
    walkList env st 0 pidx l = (st, 0, .ok) := by
  cases l with
  | nil => rfl
  | cons x rest =>
    exfalso
    cases x with
    | elem n attrs children =>
      have hx : walkElem env st 0 pidx (Xml.elem n attrs children) =
          (st, 0, .err (-EINVAL)) := by
        rw [walkElem, find_elem_zero]
      rw [walkList, hx] at h
      simp at h

theorem add_ctl_to_target_pn (st : ParseState) (c : Ctl) (st1 : ParseState)
    (h : add_ctl_to_target st c = some st1) : st1.path_names = st.path_names := by
  unfold add_ctl_to_target at h
  split at h
  · cases h; rfl
  · cases h; rfl
  · cases h; rfl
  · split at h
    · cases h
      unfold modifyStreamAt
      split
      · rfl
      · rfl
    · cases h

theorem parse_ctl_start_pn (env : Env) (st : ParseState) (vals : AttrVals)
    (valid : Nat) (r : ParseState × Nat)
    (h : parse_ctl_start env st vals valid = .ok r) : r.1.path_names = st.path_names := by
  unfold parse_ctl_start at h
  repeat' split at h
  all_goals cases h
  all_goals rename_i heq
  · exact add_ctl_to_target_pn _ _ _ heq
  · exact add_ctl_to_target_pn _ _ _ heq

theorem parse_device_start_pn (env : Env) (st : ParseState) (vals : AttrVals)
    (valid : Nat) (r : ParseState × Nat)
    (h : parse_device_start env st vals valid = .ok r) : r.1.path_names = st.path_names := by
  unfold parse_device_start at h
  repeat' split at h
  all_goals cases h
  all_goals rfl

theorem parse_stream_start_pn (env : Env) (st : ParseState) (vals : AttrVals)
    (valid : Nat) (r : ParseState × Nat)
    (h : parse_stream_start env st vals valid = .ok r) : r.1.path_names = st.path_names := by
  unfold parse_stream_start at h
  split at h
  · cases h
  · split at h
    · cases h; rfl
    · cases h; rfl

theorem parse_enable_disable_start_ok (st : ParseState) (vals : AttrVals)
    (valid : Nat) (b : Bool) (r : ParseState × Nat)
    (h : parse_enable_disable_start st vals valid b = .ok r) :
    ∃ pn, attr_get vals e_attrib_path = some pn ∧
      (find_path_name st.path_names pn).isSome = true ∧
      r.1.path_names = st.path_names := by
  unfold parse_enable_disable_start at h
  split at h
  · cases h
  · rename_i pn hpn
    split at h
    · cases h
    · rename_i i hfind
      split at h
      · cases h
      · cases h
        refine ⟨pn, hpn, by simp [hfind], ?_⟩
        unfold modifyStreamAt
        split <;> rfl

theorem parse_path_start_ok (env : Env) (st : ParseState) (vals : AttrVals)
    (valid : Nat) (r : ParseState × Nat)
    (h : parse_path_start env st vals valid = .ok r) :
    ∃ nm, attr_get vals e_attrib_name = some nm ∧
      r.1.path_names = (add_path_name st.path_names nm).1 := by
  unfold parse_path_start at h
  split at h
  · cases h
  · rename_i nm hnm
    split at h
    · cases h
    · split at h
      · cases h
      · cases h
        exact ⟨nm, hnm, rfl⟩

theorem parse_case_start_pn (env : Env) (st : ParseState) (vals : AttrVals)
    (valid : Nat) (r : ParseState × Nat)
    (h : parse_case_start env st vals valid = .ok r) : r.1.path_names = st.path_names := by
  unfold parse_case_start at h
  repeat' split at h
  all_goals cases h
  all_goals unfold setStreamAt
  all_goals split
  all_goals rfl

theorem parse_usecase_start_pn (env : Env) (st : ParseState) (vals : AttrVals)
    (valid : Nat) (r : ParseState × Nat)
    (h : parse_usecase_start env st vals valid = .ok r) : r.1.path_names = st.path_names := by
  unfold parse_usecase_start at h
  repeat' split at h
  all_goals cases h
  all_goals unfold setStreamAt
  all_goals split
  all_goals rfl

theorem parse_set_start_pn (env : Env) (st : ParseState) (vals : AttrVals)
    (valid : Nat) (r : ParseState × Nat)
    (h : parse_set_start env st vals valid = .ok r) : r.1.path_names = st.path_names := by
  unfold parse_set_start at h
  repeat' split at h
  all_goals cases h
  all_goals rfl

theorem parse_stream_ctl_start_pn (env : Env) (st : ParseState) (vals : AttrVals)
    (valid : Nat) (r : ParseState × Nat)
    (h : parse_stream_ctl_start env st vals valid = .ok r) : r.1.path_names = st.path_names := by
  unfold parse_stream_ctl_start at h
  repeat' split at h
  all_goals cases h
  all_goals rfl

theorem parse_mixer_start_pn (env : Env) (st : ParseState) (vals : AttrVals)
    (valid : Nat) (r : ParseState × Nat)
    (h : parse_mixer_start env st vals valid = .ok r) : r.1.path_names = st.path_names := by
  unfold parse_mixer_start parse_set_mixer at h
  repeat' split at h
  all_goals cases h
  all_goals rfl

theorem parse_codec_probe_start_pn (env : Env) (st : ParseState) (vals : AttrVals)
    (valid : Nat) (r : ParseState × Nat)
    (h : parse_codec_probe_start env st vals valid = .ok r) : r.1.path_names = st.path_names := by
  unfold parse_codec_probe_start at h
  repeat' split at h
  all_goals cases h
  all_goals rfl

theorem parse_codec_case_start_pn (env : Env) (st : ParseState) (vals : AttrVals)
    (valid : Nat) (r : ParseState × Nat)
    (h : parse_codec_case_start env st vals valid = .ok r) : r.1.path_names = st.path_names := by
  unfold parse_codec_case_start at h
  repeat' split at h
  all_goals cases h
  all_goals rfl

theorem probe_proceed_pn (env : Env) (st : ParseState) (s : ParseState)
    (h : probe_config_file env st = .proceed s) : s.path_names = st.path_names := by
  unfold probe_config_file at h
  split at h
  · cases h
  · split at h
    · cases h
    · split at h
      · cases h; rfl
      · rename_i buf hbuf
        simp only [] at h
        cases hfind : List.find? (fun cc => decide (cc.codec_name = trimC buf))
            st.probe.cases with
        | none => rw [hfind] at h; simp only [] at h; cases h; rfl
        | some cc =>
          rw [hfind] at h
          simp only [] at h
          by_cases hcf : cc.cfile = st.cur_xml_file
          · rw [if_pos hcf] at h; cases h
          · rw [if_neg hcf] at h; cases h

theorem probe_self_pn (env : Env) (st : ParseState) (s : ParseState)
    (h : probe_config_file env st = .selfRedirect s) : s.path_names = st.path_names := by
  unfold probe_config_file at h
  split at h
  · cases h
  · split at h
    · cases h
    · split at h
      · cases h
      · rename_i buf hbuf
        simp only [] at h
        cases hfind : List.find? (fun cc => decide (cc.codec_name = trimC buf))
            st.probe.cases with
        | none => rw [hfind] at h; simp only [] at h; cases h
        | some cc =>
          rw [hfind] at h
          simp only [] at h
          by_cases hcf : cc.cfile = st.cur_xml_file
          · rw [if_pos hcf] at h; cases h; rfl
          · rw [if_neg hcf] at h; cases h

theorem probe_redirect_pn (env : Env) (st : ParseState) (s : ParseState)
    (h : probe_config_file env st = .redirect s) : s.path_names = st.path_names := by
  unfold probe_config_file at h
  split at h
  · cases h
  · split at h
    · cases h
    · split at h
      · cases h
      · rename_i buf hbuf
        simp only [] at h
        cases hfind : List.find? (fun cc => decide (cc.codec_name = trimC buf))
            st.probe.cases with
        | none => rw [hfind] at h; simp only [] at h; cases h
        | some cc =>
          rw [hfind] at h
          simp only [] at h
          by_cases hcf : cc.cfile = st.cur_xml_file
          · rw [if_pos hcf] at h; cases h
          · rw [if_neg hcf] at h; cases h; rfl

/-- Every element handler other than `parse_path_start` leaves the
path-name table unchanged. -/
theorem run_start_fn_pn (env : Env) (ei : Nat) (st : ParseState) (vals : AttrVals)
    (valid : Nat) (r : ParseState × Nat) (hne : ei ≠ e_elem_path)
    (h : run_start_fn env ei st vals valid = .ok r) : r.1.path_names = st.path_names := by
  unfold run_start_fn at h
  by_cases h0 : ei = e_elem_ctl
  case pos => rw [if_pos h0] at h; exact parse_ctl_start_pn env st vals valid r h
  rw [if_neg h0] at h
  by_cases h1 : ei = e_elem_path
  case pos => exact absurd h1 hne
  rw [if_neg h1] at h
  by_cases h2 : ei = e_elem_device
  case pos => rw [if_pos h2] at h; exact parse_device_start_pn env st vals valid r h
  rw [if_neg h2] at h
  by_cases h3 : ei = e_elem_stream
  case pos => rw [if_pos h3] at h; exact parse_stream_start_pn env st vals valid r h
  rw [if_neg h3] at h
  by_cases h4 : ei = e_elem_enable
  case pos =>
    rw [if_pos h4] at h
    obtain ⟨pn, _, _, hp⟩ := parse_enable_disable_start_ok st vals valid true r h
    exact hp
  rw [if_neg h4] at h
  by_cases h5 : ei = e_elem_disable
  case pos =>
    rw [if_pos h5] at h
    obtain ⟨pn, _, _, hp⟩ := parse_enable_disable_start_ok st vals valid false r h
    exact hp
  rw [if_neg h5] at h
  by_cases h6 : ei = e_elem_case
  case pos => rw [if_pos h6] at h; exact parse_case_start_pn env st vals valid r h
  rw [if_neg h6] at h
  by_cases h7 : ei = e_elem_usecase
  case pos => rw [if_pos h7] at h; exact parse_usecase_start_pn env st vals valid r h
  rw [if_neg h7] at h
  by_cases h8 : ei = e_elem_set
  case pos => rw [if_pos h8] at h; exact parse_set_start_pn env st vals valid r h
  rw [if_neg h8] at h
  by_cases h9 : ei = e_elem_stream_ctl
  case pos => rw [if_pos h9] at h; exact parse_stream_ctl_start_pn env st vals valid r h
  rw [if_neg h9] at h
  by_cases h10 : ei = e_elem_init
  case pos => rw [if_pos h10] at h; cases h; rfl
  rw [if_neg h10] at h
  by_cases h11 : ei = e_elem_pre_init
  case pos => rw [if_pos h11] at h; cases h; rfl
  rw [if_neg h11] at h
  by_cases h12 : ei = e_elem_mixer
  case pos => rw [if_pos h12] at h; exact parse_mixer_start_pn env st vals valid r h
  rw [if_neg h12] at h
  by_cases h13 : ei = e_elem_codec_probe
  case pos => rw [if_pos h13] at h; exact parse_codec_probe_start_pn env st vals valid r h
  rw [if_neg h13] at h
  by_cases h14 : ei = e_elem_codec_case
  case pos => rw [if_pos h14] at h; exact parse_codec_case_start_pn env st vals valid r h
  rw [if_neg h14] at h
  cases h; rfl

/-- No end handler changes the path-name table. -/
theorem run_end_fn_pn (env : Env) (ei : Nat) (st : ParseState) (valid : Nat)
    (r2 : ParseState × Nat × WalkStatus)
    (h : run_end_fn env ei st valid = .ok r2) : r2.1.path_names = st.path_names := by
  unfold run_end_fn at h
  by_cases h0 : ei = e_elem_path
  case pos => rw [if_pos h0] at h; cases h; rfl
  rw [if_neg h0] at h
  by_cases h1 : ei = e_elem_device
  case pos => rw [if_pos h1] at h; cases h; rfl
  rw [if_neg h1] at h
  by_cases h2 : ei = e_elem_stream
  case pos => rw [if_pos h2] at h; cases h; rfl
  rw [if_neg h2] at h
  by_cases h3 : ei = e_elem_case
  case pos => rw [if_pos h3] at h; cases h; rfl
  rw [if_neg h3] at h
  by_cases h4 : ei = e_elem_usecase
  case pos => rw [if_pos h4] at h; cases h; rfl
  rw [if_neg h4] at h
  by_cases h5 : ei = e_elem_init
  case pos => rw [if_pos h5] at h; cases h; rfl
  rw [if_neg h5] at h
  by_cases h6 : ei = e_elem_pre_init
  case pos =>
    rw [if_pos h6] at h
    unfold parse_preinit_end at h
    split at h
    · cases h
    · cases h; rfl
  rw [if_neg h6] at h
  by_cases h7 : ei = e_elem_mixer
  case pos => rw [if_pos h7] at h; cases h; rfl
  rw [if_neg h7] at h
  by_cases h8 : ei = e_elem_codec_probe
  case pos =>
    rw [if_pos h8] at h
    unfold parse_codec_probe_end at h
    split at h
    · cases h; rfl
    · rename_i s hpr
      cases h
      exact probe_proceed_pn env st s hpr
    · rename_i s hpr
      cases h
      exact probe_self_pn env st s hpr
    · rename_i s hpr
      cases h
      exact probe_redirect_pn env st s hpr
  rw [if_neg h8] at h
  cases h; rfl

/-- Only `parse_codec_probe_end` can end an element with a status other
than `ok`. -/
theorem run_end_fn_status (env : Env) (ei : Nat) (st : ParseState) (valid : Nat)
    (r2 : ParseState × Nat × WalkStatus) (hne : ei ≠ e_elem_codec_probe)
    (h : run_end_fn env ei st valid = .ok r2) : r2.2.2 = .ok := by
  unfold run_end_fn at h
  by_cases h0 : ei = e_elem_path
  case pos => rw [if_pos h0] at h; cases h; rfl
  rw [if_neg h0] at h
  by_cases h1 : ei = e_elem_device
  case pos => rw [if_pos h1] at h; cases h; rfl
  rw [if_neg h1] at h
  by_cases h2 : ei = e_elem_stream
  case pos => rw [if_pos h2] at h; cases h; rfl
  rw [if_neg h2] at h
  by_cases h3 : ei = e_elem_case
  case pos => rw [if_pos h3] at h; cases h; rfl
  rw [if_neg h3] at h
  by_cases h4 : ei = e_elem_usecase
  case pos => rw [if_pos h4] at h; cases h; rfl
  rw [if_neg h4] at h
  by_cases h5 : ei = e_elem_init
  case pos => rw [if_pos h5] at h; cases h; rfl
  rw [if_neg h5] at h
  by_cases h6 : ei = e_elem_pre_init
  case pos =>
    rw [if_pos h6] at h
    unfold parse_preinit_end at h
    split at h
    · cases h
    · cases h; rfl
  rw [if_neg h6] at h
  by_cases h7 : ei = e_elem_mixer
  case pos => rw [if_pos h7] at h; cases h; rfl
  rw [if_neg h7] at h
  by_cases h8 : ei = e_elem_codec_probe
  case pos => exact absurd h8 hne
  rw [if_neg h8] at h
  cases h; rfl

theorem elem_pin_enable : ∀ j, j < 16 → elem_name j = "enable" → j = e_elem_enable := by
  decide

theorem elem_pin_disable : ∀ j, j < 16 → elem_name j = "disable" → j = e_elem_disable := by
  decide

theorem elem_pin_path : ∀ j, j < 16 → elem_name j = "path" → j = e_elem_path := by
  decide

mutual
/-- Without `<codec_probe>` elements the walk can only finish `ok` or with
an error: no suspension, abort or blocking. -/
theorem walk_np_elem (env : Env) (x : Xml) (hnp : no_probeE x = true) :
    ∀ (st : ParseState) (pvalid pidx : Nat),
      (walkElem env st pvalid pidx x).2.2 = WalkStatus.ok ∨
      ∃ e, (walkElem env st pvalid pidx x).2.2 = WalkStatus.err e := by
  match x with
  | .elem n attrs children =>
    rw [no_probeE, Bool.and_eq_true, decide_eq_true_eq] at hnp
    obtain ⟨hn, hch⟩ := hnp
    intro st pvalid pidx
    rw [walkElem]
    cases hfe : find_elem pvalid n with
    | none => exact Or.inr ⟨-EINVAL, rfl⟩
    | some ei =>
      simp only []
      by_cases hd : pidx ≥ MAX_PARSE_DEPTH
      · rw [if_pos hd]; exact Or.inr ⟨-EINVAL, rfl⟩
      · rw [if_neg hd]
        cases hex : extract_attribs ei attrs with
        | none => exact Or.inr ⟨-EINVAL, rfl⟩
        | some vals =>
          simp only []
          cases hsf : run_start_fn env ei st vals pvalid with
          | error e => exact Or.inr ⟨e, rfl⟩
          | ok r =>
            simp only []
            rcases walk_np_list env children hch r.1 (elem_valid_subelem ei) (pidx + 1)
              with hok | ⟨e, herr⟩
            · rw [hok]
              cases hef : run_end_fn env ei (walkList env r.1 (elem_valid_subelem ei)
                  (pidx + 1) children).1 r.2 with
              | error e => exact Or.inr ⟨e, rfl⟩
              | ok r2 =>
                simp only []
                left
                obtain ⟨hname, _, hlt⟩ := find_elem_some pvalid n ei hfe
                have hne14 : ei ≠ e_elem_codec_probe := by
                  intro hc
                  rw [hc] at hname
                  exact hn hname.symm
                exact run_end_fn_status env ei _ r.2 r2 hne14 hef
            · rw [herr]
              exact Or.inr ⟨e, rfl⟩

theorem walk_np_list (env : Env) (l : List Xml) (hnp : no_probeL l = true) :
    ∀ (st : ParseState) (pvalid pidx : Nat),
      (walkList env st pvalid pidx l).2.2 = WalkStatus.ok ∨
      ∃ e, (walkList env st pvalid pidx l).2.2 = WalkStatus.err e := by
  match l with
  | [] => intro st pvalid pidx; exact Or.inl rfl
  | x :: rest =>
    rw [no_probeL, Bool.and_eq_true] at hnp
    obtain ⟨h1, h2⟩ := hnp
    intro st pvalid pidx
    rw [walkList]
    rcases walk_np_elem env x h1 st pvalid pidx with hok | ⟨e, herr⟩
    · rw [hok]
      exact walk_np_list env rest h2 _ _ _
    · rw [herr]
      exact Or.inr ⟨e, herr⟩
end

mutual
/-- A successful walk satisfies the declaration discipline: every
`<enable>`/`<disable>` reference was findable when reached, and the final
path-name table is the document-order fold of the `<path>` declarations. -/
theorem walk_refs_elem (env : Env) (x : Xml) :
    ∀ (st : ParseState) (pvalid pidx : Nat),
      (walkElem env st pvalid pidx x).2.2 = WalkStatus.ok →
      (refs_checkE st.path_names x).1 = true ∧
      (walkElem env st pvalid pidx x).1.path_names = (refs_checkE st.path_names x).2 := by
  match x with
  | .elem n attrs children =>
    intro st pvalid pidx hok
    rw [walkElem] at hok ⊢
    cases hfe : find_elem pvalid n with
    | none => rw [hfe] at hok; simp at hok
    | some ei =>
      rw [hfe] at hok
      simp only [] at hok ⊢
      by_cases hd : pidx ≥ MAX_PARSE_DEPTH
      · rw [if_pos hd] at hok; simp at hok
      · rw [if_neg hd] at hok ⊢
        cases hex : extract_attribs ei attrs with
        | none => rw [hex] at hok; simp at hok
        | some vals =>
          rw [hex] at hok
          simp only [] at hok ⊢
          cases hsf : run_start_fn env ei st vals pvalid with
          | error e => rw [hsf] at hok; simp at hok
          | ok r =>
            rw [hsf] at hok
            simp only [] at hok ⊢
            obtain ⟨hname, _, hlt⟩ := find_elem_some pvalid n ei hfe
            by_cases hen : n = "enable" ∨ n = "disable"
            · -- an <enable> or <disable> element
              have hei : ei = (if n = "enable" then e_elem_enable else e_elem_disable) := by
                rcases hen with he | he
                · rw [if_pos he]; exact elem_pin_enable ei hlt (he ▸ hname)
                · have hne : ¬n = "enable" := by
                    intro hc; rw [hc] at he; exact absurd he (by decide)
                  rw [if_neg hne]; exact elem_pin_disable ei hlt (he ▸ hname)
              have hzero : elem_valid_subelem ei = 0 := by
                rcases hen with he | he
                · rw [hei, if_pos he]; rfl
                · have hne : ¬n = "enable" := by
                    intro hc; rw [hc] at he; exact absurd he (by decide)
                  rw [hei, if_neg hne]; rfl
              have hsf2 : parse_enable_disable_start st vals pvalid
                  (decide (n = "enable")) = Except.ok r := by
                rcases hen with he | he
                · have hq : ei = e_elem_enable := by rw [hei, if_pos he]
                  rw [hq] at hsf
                  rw [he]
                  exact hsf
                · have hne : ¬n = "enable" := by
                    intro hc; rw [hc] at he; exact absurd he (by decide)
                  have hq : ei = e_elem_disable := by rw [hei, if_neg hne]
                  rw [hq] at hsf
                  simp only [decide_eq_false hne]
                  exact hsf
              obtain ⟨pn, hpn, hfindsome, hrpn⟩ :=
                parse_enable_disable_start_ok st vals pvalid _ r hsf2
              rw [hzero] at hok ⊢
              cases hw : (walkList env r.1 0 (pidx + 1) children).2.2 with
              | ok =>
                have hwz := walkList_zero_of_ok env children r.1 (pidx + 1) hw
                rw [hwz] at hok ⊢
                simp only [] at hok ⊢
                have hef : run_end_fn env ei r.1 r.2 =
                    Except.ok (r.1, r.2, WalkStatus.ok) := by
                  rcases hen with he | he
                  · rw [hei, if_pos he]; rfl
                  · have hne : ¬n = "enable" := by
                      intro hc; rw [hc] at he; exact absurd he (by decide)
                    rw [hei, if_neg hne]; rfl
                rw [hef] at hok ⊢
                simp only [] at hok ⊢
                rw [refs_checkE]
                rw [if_pos hen]
                rw [ref_path_name]
                have hexn : extract_attribs
                    (if n = "enable" then e_elem_enable else e_elem_disable) attrs =
                    some vals := by rw [← hei]; exact hex
                rw [hexn]
                simp only []
                rw [hpn]
                exact ⟨hfindsome, hrpn⟩
              | err e => rw [hw] at hok; simp at hok
              | suspend => rw [hw] at hok; simp at hok
              | abort => rw [hw] at hok; simp at hok
              | blocked => rw [hw] at hok; simp at hok
            · by_cases hpth : n = "path"
              · -- a <path> element declares its name
                have hei : ei = e_elem_path := elem_pin_path ei hlt (hpth ▸ hname)
                have hsf2 : parse_path_start env st vals pvalid = Except.ok r := by
                  rw [hei] at hsf; exact hsf
                obtain ⟨nm, hnm, hrpn⟩ := parse_path_start_ok env st vals pvalid r hsf2
                cases hw : (walkList env r.1 (elem_valid_subelem ei) (pidx + 1)
                    children).2.2 with
                | ok =>
                  rw [hw] at hok
                  simp only [] at hok ⊢
                  cases hef : run_end_fn env ei (walkList env r.1 (elem_valid_subelem ei)
                      (pidx + 1) children).1 r.2 with
                  | error e => rw [hef] at hok; simp at hok
                  | ok r2 =>
                    rw [hef] at hok
                    simp only [] at hok ⊢
                    obtain ⟨hc1, hc2⟩ := walk_refs_list env children r.1
                      (elem_valid_subelem ei) (pidx + 1) hw
                    rw [refs_checkE, if_neg hen]
                    simp only [if_pos hpth, path_decl_name]
                    have hex2 : extract_attribs e_elem_path attrs = some vals := by
                      rw [← hei]; exact hex
                    rw [hex2]
                    simp only []
                    rw [hnm]
                    simp only []
                    rw [hrpn] at hc1 hc2
                    refine ⟨hc1, ?_⟩
                    rw [run_end_fn_pn env ei _ r.2 r2 hef]
                    exact hc2
                | err e => rw [hw] at hok; simp at hok
                | suspend => rw [hw] at hok; simp at hok
                | abort => rw [hw] at hok; simp at hok
                | blocked => rw [hw] at hok; simp at hok
              · -- any other element neither declares nor references paths
                have heip : ei ≠ e_elem_path := by
                  intro hc; rw [hc] at hname; exact hpth hname.symm
                have hr1 : r.1.path_names = st.path_names :=
                  run_start_fn_pn env ei st vals pvalid r heip hsf
                cases hw : (walkList env r.1 (elem_valid_subelem ei) (pidx + 1)
                    children).2.2 with
                | ok =>
                  rw [hw] at hok
                  simp only [] at hok ⊢
                  cases hef : run_end_fn env ei (walkList env r.1 (elem_valid_subelem ei)
                      (pidx + 1) children).1 r.2 with
                  | error e => rw [hef] at hok; simp at hok
                  | ok r2 =>
                    rw [hef] at hok
                    simp only [] at hok ⊢
                    obtain ⟨hc1, hc2⟩ := walk_refs_list env children r.1
                      (elem_valid_subelem ei) (pidx + 1) hw
                    rw [refs_checkE, if_neg hen]
                    simp only [if_neg hpth]
                    rw [hr1] at hc1 hc2
                    refine ⟨hc1, ?_⟩
                    rw [run_end_fn_pn env ei _ r.2 r2 hef]
                    exact hc2
                | err e => rw [hw] at hok; simp at hok
                | suspend => rw [hw] at hok; simp at hok
                | abort => rw [hw] at hok; simp at hok
                | blocked => rw [hw] at hok; simp at hok

theorem walk_refs_list (env : Env) (l : List Xml) :
    ∀ (st : ParseState) (pvalid pidx : Nat),
      (walkList env st pvalid pidx l).2.2 = WalkStatus.ok →
      (refs_checkL st.path_names l).1 = true ∧
      (walkList env st pvalid pidx l).1.path_names = (refs_checkL st.path_names l).2 := by
  match l with
  | [] => intro st pvalid pidx hok; exact ⟨rfl, rfl⟩
  | x :: rest =>
    intro st pvalid pidx hok
    cases hw : (walkElem env st pvalid pidx x).2.2 with
    | ok =>
      have hstep : walkList env st pvalid pidx (x :: rest) =
          walkList env (walkElem env st pvalid pidx x).1
            (walkElem env st pvalid pidx x).2.1 pidx rest := by
        rw [walkList, hw]
      rw [hstep] at hok ⊢
      obtain ⟨h1, h2⟩ := walk_refs_elem env x st pvalid pidx hw
      obtain ⟨h3, h4⟩ := walk_refs_list env rest (walkElem env st pvalid pidx x).1
        (walkElem env st pvalid pidx x).2.1 pidx hok
      rw [refs_checkL]
      simp only [h2] at h3 h4 ⊢
      rw [if_pos h1]
      exact ⟨h3, h4⟩
    | err e =>
      have hstep : walkList env st pvalid pidx (x :: rest) =
          walkElem env st pvalid pidx x := by
        rw [walkList, hw]
      rw [hstep, hw] at hok
      simp at hok
    | suspend =>
      have hstep : walkList env st pvalid pidx (x :: rest) =
          walkElem env st pvalid pidx x := by
        rw [walkList, hw]
      rw [hstep, hw] at hok
      simp at hok
    | abort =>
      have hstep : walkList env st pvalid pidx (x :: rest) =
          walkElem env st pvalid pidx x := by
        rw [walkList, hw]
      rw [hstep, hw] at hok
      simp at hok
    | blocked =>
      have hstep : walkList env st pvalid pidx (x :: rest) =
          walkElem env st pvalid pidx x := by
        rw [walkList, hw]
      rw [hstep, hw] at hok
      simp at hok
end

/-- **C6**: a config file containing an `<enable path="foo">` or
`<disable path="foo">` whose path name was never declared by a preceding
`<path name="foo">` element (and is not one of the predefined names
"off"/"on") fails the whole load: `init_audio_config` returns a NULL
manager and no partial model is kept.  The document-order discipline is
`refs_checkE` starting from the predefined table `["off", "on"]`; the
document must not use `<codec_probe>` (whose redirects deliberately stop
parsing of the rest of the file). -/
theorem enable_undeclared_path_fails_load (env : Env) (fuel : Nat) (file : String)
    (doc : Xml)
    (hdoc : lookup_str env.xmlFiles file = some doc)
    (hfuel : 0 < fuel)
    (hnp : no_probeE doc = true)
    (hbad : (refs_checkE ["off", "on"] doc).1 = false) :
    init_audio_config_model env fuel file = .nullMgr := by
  obtain ⟨k, rfl⟩ : ∃ k, fuel = k + 1 := ⟨fuel - 1, by omega⟩
  have hst1 : (chain_reset (initial_parse_state new_config_mgr file) file).path_names =
      ["off", "on"] := rfl
  rcases walk_np_elem env doc hnp
      (chain_reset (initial_parse_state new_config_mgr file) file)
      (BIT e_elem_audiohal) 0 with hok | ⟨e, herr⟩
  · exfalso
    have h := (walk_refs_elem env doc
      (chain_reset (initial_parse_state new_config_mgr file) file)
      (BIT e_elem_audiohal) 0 hok).1
    rw [hst1] at h
    rw [h] at hbad
    exact Bool.noConfusion hbad
  · have hdp : do_parse env (chain_reset (initial_parse_state new_config_mgr file) file)
        doc = .ret (-EINVAL)
          (walkElem env (chain_reset (initial_parse_state new_config_mgr file) file)
            (BIT e_elem_audiohal) 0 doc).1 := by
      unfold do_parse
      simp only []
      rw [herr]
    have hchain : parse_chain env (k + 1) (initial_parse_state new_config_mgr file)
        file = .err (-EINVAL) := by
      rw [parse_chain, hdoc]
      simp only []
      rw [hdp]
      simp only []
      rw [if_pos (by norm_num [EINVAL])]
    unfold init_audio_config_model parse_config_file_model
    rw [hchain]

/-- Witness for C6: the concrete document `c6Doc` declares no `<path>`
but enables path "foo"; its load returns the NULL manager. -/
theorem enable_undeclared_path_fails_load_witness :
    lookup_str c6Env.xmlFiles "/c6.xml" = some c6Doc ∧
    0 < 1 ∧
    no_probeE c6Doc = true ∧
    (refs_checkE ["off", "on"] c6Doc).1 = false ∧
    init_audio_config_model c6Env 1 "/c6.xml" = .nullMgr :=
  ⟨rfl, Nat.one_pos, rfl, rfl,
    enable_undeclared_path_fails_load c6Env 1 "/c6.xml" c6Doc rfl Nat.one_pos rfl rfl⟩

end TinyHal
